import Mathlib

/-!
Verification development for the take/put integer-advanced-indexing
orchestrators of dpctl's libtensor
(`src/dpctl/tensor/libtensor/source/integer_advanced_indexing.cpp`).

The two public operations `usm_ndarray_take` (lines 246-515) and
`usm_ndarray_put` (lines 517-784) are embedded as pure Lean functions that
return the list of device-side effects the call performs (allocations,
asynchronous copy submissions, kernel submission, deferred frees) together
with either an error or the returned pair of completion events.

Helper facilities that the file uses but whose sources are not part of the
sampled repository (`utils/type_dispatch.hpp`, `utils/memory_overlap.hpp`,
`utils/output_validation.hpp`, `utils/sycl_alloc_utils.hpp`,
`kernels/integer_advanced_indexing.hpp`) are modelled from the spec; each
such definition carries a doc comment starting with `Modelled from the
spec:`.
-/

namespace DpctlIndexing

/-- Modelled from the spec: §3 — dense `TypeId` range `[0, num_types)`, one per
supported element kind (bool; 8/16/32/64-bit signed and unsigned integers;
16/32/64-bit floats; 32/64-bit complex), i.e. 14 kinds.  The source constant
`td_ns::num_types` lives in `utils/type_dispatch.hpp`, which is not under
`src/`. -/
def num_types : Nat := 14

/-- The synchronous errors the two orchestrators can raise, one constructor per
distinct `throw` site of `integer_advanced_indexing.cpp` (plus the
`UnsupportedType` error of `typenum_to_lookup_id`). -/
inductive Err
  /-- `parse_py_ind`, line 227: "Index allocation queue is not compatible…". -/
  | indexQueueIncompat
  /-- `parse_py_ind`, line 232: "Indices must have the same number of dimensions.". -/
  | indexNdimMismatch
  /-- lines 260/531: "List of indices is empty.". -/
  | emptyIndexList
  /-- lines 264/535: "Axis cannot be negative.". -/
  | negativeAxis
  /-- lines 268/539: "Mode must be 0 or 1.". -/
  | invalidMode
  /-- lines 271/542: `CheckWritable::throw_if_not_writable`. -/
  | notWritable
  /-- lines 282/553: "Axes are out of range for array of dimension…". -/
  | axesOutOfRange
  /-- lines 287-295/558-566: "Destination is not of appropriate dimension…". -/
  | destRankMismatch
  /-- lines 313/586: "Axes of basic indices are not of matching shapes.". -/
  | orthogShapeMismatch
  /-- lines 325/383/598/652: "Execution queue is not compatible with allocation queues". -/
  | queueIncompat
  /-- lines 331/604: memory overlap between the two data arrays. -/
  | overlapError
  /-- `typenum_to_lookup_id` on an unknown typenum (spec §4.1 `UnsupportedType`). -/
  | unsupportedTypenum
  /-- lines 345/620: "Array data types are not the same." (a `py::type_error`). -/
  | typeMismatch
  /-- lines 358/633: index shape does not match destination/vals axis shape. -/
  | indShapeAxisMismatch
  /-- lines 363/610: `AmpleMemory::throw_if_not_ample`. -/
  | notAmple
  /-- lines 389/659: "Index dimensions are not the same". -/
  | indexDimsMismatch
  /-- lines 395/665: "Indices array data types are not all the same." (`py::type_error`). -/
  | indexTypeMismatch
  /-- lines 402/672: "Indices shapes are not all equal.". -/
  | indexShapeMismatch
  /-- lines 409/679: index array overlaps the destination. -/
  | indexOverlap
  /-- lines 493/762: "Indices must be integer type, got…" (null dispatch entry). -/
  | unsupportedOpForTypes
deriving DecidableEq, Repr

/-- Completion events of one orchestrator call.  `defaultEv` is the
default-constructed, already-complete `sycl::event{}`; the other constructors
name the events created by the call, in the order the source creates them. -/
inductive Event
  | defaultEv
  /-- one of the five `exec_q.copy` submissions of `_populate_kernel_params`. -/
  | copyEv (i : Nat)
  /-- the host task of `_populate_kernel_params` that releases the host staging vectors. -/
  | shCleanupEv
  /-- the compute kernel event (`take_generic_ev` / `put_generic_ev`). -/
  | computeEv
  /-- the deferred-release event returned by `async_smart_free`. -/
  | tempFreeEv
  /-- the event returned by `keep_args_alive`. -/
  | argKeepEv
deriving DecidableEq, Repr

/-- The five device-resident packed scratch allocations of one call. -/
inductive AllocTag
  | indPtrs | indShSt | indOffsets | orthogShSt | alongShSt
deriving DecidableEq, Repr

/-- Observable device-side actions of one orchestrator call, in program order. -/
inductive Effect
  /-- `smart_malloc_device` of a packed scratch buffer. -/
  | allocDevice (tag : AllocTag) (nelems : Nat)
  /-- an `exec_q.copy` submission staging host data into device scratch. -/
  | submitCopy (ev : Event)
  /-- a submitted host task (the staging-vector cleanup of `_populate_kernel_params`). -/
  | submitHostTask (deps : List Event) (ev : Event)
  /-- submission of the compute kernel with its dependency list. -/
  | submitKernel (deps : List Event) (ev : Event)
  /-- `async_smart_free`: deferred release of scratch allocations after `deps`. -/
  | asyncFree (deps : List Event) (tags : List AllocTag) (ev : Event)
  /-- `keep_args_alive` host task pinning the Python arguments. -/
  | keepAlive (deps : List Event) (ev : Event)
  /-- `sycl::event::wait` performed by the calling thread. -/
  | waitEvents (evs : List Event)
deriving DecidableEq, Repr

deriving instance DecidableEq for Except

/-- Descriptor of a `dpctl::tensor::usm_ndarray` with the attributes the two
orchestrators read: shape, strides, NumPy typenum, writability flag, the
allocation queue, the underlying memory block (`memId`) with its inclusive
element span `[memLo, memHi]`, and the addressable element count used by
`AmpleMemory` (spec §4.3 item 6). -/
structure USMArray where
  shape : List Nat
  strides : List Int
  typenum : Nat
  writable : Bool
  queue : Nat
  memId : Nat
  memLo : Nat
  memHi : Nat
  addressable : Nat
deriving DecidableEq, Repr

/-- `usm_ndarray::get_ndim()`: the rank. -/
def USMArray.nd (a : USMArray) : Nat := a.shape.length

/-- `usm_ndarray::get_size()`: the element count, the product of the shape. -/
def USMArray.size (a : USMArray) : Nat := a.shape.prod

/-- Modelled from the spec: §4.1 — `typenum_to_lookup_id(typenum) -> TypeId`,
total and pure, with an unknown typenum signalling `UnsupportedType`; the
source (`utils/type_dispatch.hpp`) is not under `src/`.  The dense id range is
taken as the typenums `0 ≤ t < num_types` themselves. -/
def typenum_to_lookup_id (t : Nat) : Except Err Nat :=
  if t < num_types then .ok t else .error .unsupportedTypenum

/-- Modelled from the spec: §4.3 item 4 — `dpctl::utils::queues_are_compatible`
(not under `src/`): the array must have been allocated on a queue compatible
with the execution queue; compatibility is modelled as equality of queue ids. -/
def queues_compatible (q : Nat) (a : USMArray) : Bool := a.queue == q

/-- `queues_are_compatible(exec_q, {a, b})` for two arrays. -/
def queues_compatible2 (q : Nat) (a b : USMArray) : Bool :=
  queues_compatible q a && queues_compatible q b

/-- Modelled from the spec: §4.3 item 5 — `MemoryOverlap`
(`utils/memory_overlap.hpp`, not under `src/`): two descriptors conflict when
their byte-address spans over the same underlying allocation intersect and the
descriptors are not the identical buffer. -/
def memoryOverlap (a b : USMArray) : Prop :=
  a.memId = b.memId ∧ a.memLo ≤ b.memHi ∧ b.memLo ≤ a.memHi ∧
    ¬(a.memLo = b.memLo ∧ a.memHi = b.memHi)

instance (a b : USMArray) : Decidable (memoryOverlap a b) := by
  unfold memoryOverlap; exact inferInstance

/-- The loop body of `parse_py_ind` (lines 222-241): for each index array, in
order, check queue compatibility, then rank agreement with the first array. -/
def parse_go (q : Nat) (nd : Option Nat) : List USMArray → Except Err Unit
  | [] => .ok ()
  | a :: rest =>
    if queues_compatible q a then
      match nd with
      | some n =>
        if a.nd = n then parse_go q (some n) rest else .error .indexNdimMismatch
      | none => parse_go q (some a.nd) rest
    else .error .indexQueueIncompat

/-- `parse_py_ind` (lines 213-244): validate the supplied index arrays against
the execution queue and against each other's rank.  (The conversion of Python
objects to `usm_ndarray` is outside the model.) -/
def parse_py_ind (q : Nat) (ind : List USMArray) : Except Err Unit :=
  parse_go q none ind

/-- The orthogonal (non-indexed) element count: lines 303-310/576-583 multiply
`shape[idx1]` for `i < nd - k` with `idx1 = i` before `axis_start` and
`idx1 = i + k` after. -/
def orthog_count (sh : List Nat) (a k : Nat) : Nat :=
  ((List.range (sh.length - k)).map fun i =>
    sh.getD (if i < a then i else i + k) 0).prod

/-- The orthogonal-shape agreement test of the same loops: the non-indexed
extents of the source must equal the corresponding extents of the destination
(`idx2 = i` before `axis_start`, `i + ind_nd` after). -/
def orthog_shapes_equal (sh dsh : List Nat) (a k indnd : Nat) : Bool :=
  (List.range (sh.length - k)).all fun i =>
    sh.getD (if i < a then i else i + k) 0 == dsh.getD (if i < a then i else i + indnd) 0

/-- Per-dimension check of lines 354-361/629-636: the representative index
shape must match the destination (take) / vals (put) shape starting at
`axis_start`. -/
def ind_axes_match (indsh dsh : List Nat) (a : Nat) : Bool :=
  (List.range indsh.length).all fun i => indsh.getD i 0 == dsh.getD (a + i) 0

/-- Pointwise shape comparison of lines 399-404/669-674: dimensions of an index
array against the representative (first) index array, over the common rank. -/
def ind_shapes_eq (rep a : USMArray) : Bool :=
  (List.range rep.nd).all fun d => rep.shape.getD d 0 == a.shape.getD d 0

/-- The rank-agreement condition of lines 285-296: for a 0-d source the
destination rank must equal the index rank; otherwise it must equal
`src_nd - k + ind_nd`.  (`usm_ndarray_put`, lines 556-567, applies the same
condition with `dst` in the source role and `val` in the destination role.) -/
def take_rank_ok (src dst ind_rep : USMArray) (k : Nat) : Prop :=
  if src.nd = 0 then dst.nd = ind_rep.nd else dst.nd = src.nd - k + ind_rep.nd

instance (src dst ind_rep : USMArray) (k : Nat) :
    Decidable (take_rank_ok src dst ind_rep k) := by
  unfold take_rank_ok; exact inferInstance

/-- The `i > 0` body of the per-index-array loop (lines 386-405/656-675): rank,
element type and shape agreement of the `i`-th index array with the
representative (first) one; a no-op for `i = 0`.  The type check first resolves
`typenum_to_lookup_id a.typenum` — which raises `UnsupportedType` for a
typenum outside the dense range — and then compares the resolved id (the
typenum itself on the dense range) with the representative's id; the two steps
are inlined as consecutive conditions here. -/
def index_array_step (ind_rep a : USMArray) (ind_t i : Nat) : Except Err Unit :=
  if i = 0 then .ok ()
  else if a.nd ≠ ind_rep.nd then .error .indexDimsMismatch
  else if num_types ≤ a.typenum then .error .unsupportedTypenum
  else if a.typenum ≠ ind_t then .error .indexTypeMismatch
  else if ind_shapes_eq ind_rep a = false then .error .indexShapeMismatch
  else .ok ()

/-- The per-index-array loop of lines 378-424/648-694.  For the `i`-th array:
queue compatibility; for `i > 0` the agreement checks of `index_array_step`;
then overlap with the destination.  The counter `i` starts at 0 on the full
list, so the representative array itself only gets the queue and overlap
checks. -/
def index_arrays_check (q : Nat) (dst ind_rep : USMArray) (ind_t : Nat) :
    Nat → List USMArray → Except Err Unit
  | _, [] => .ok ()
  | i, a :: rest =>
    if queues_compatible q a then
      match index_array_step ind_rep a ind_t i with
      | .error e => .error e
      | .ok _ =>
        if memoryOverlap dst a then .error .indexOverlap
        else index_arrays_check q dst ind_rep ind_t (i + 1) rest
    else .error .queueIncompat

/-- Control outcome of the validation phase of an orchestrator call. -/
inductive ValidateOut
  /-- one of the two zero-size early returns (lines 317-319/426-428 resp.
  590-592/696-698): the call returns two default events without device work. -/
  | earlyReturn
  /-- all checks passed; submission proceeds with the resolved type ids and the
  packed-buffer size parameters. -/
  | run (data_t ind_t k ind_sh_elems orthog_sh_elems : Nat)
deriving DecidableEq, Repr

/-- The validation phase of `usm_ndarray_take` (lines 255-427), in source
order: `parse_py_ind`; empty index list; negative axis; mode; writability;
axis range; destination rank; orthogonal shape agreement (computing
`orthog_nelems`); zero-orthogonal early return; queue compatibility of
`src`/`dst`; `src`/`dst` overlap; type-id resolution and agreement; index
shape against the destination axes (computing `ind_nelems`); capacity
(`AmpleMemory(dst, orthog_nelems * ind_nelems)`); the per-index-array loop;
zero-index early return. -/
def take_validate (q : Nat) (src : USMArray) (ind : List USMArray)
    (dst : USMArray) (axis_start : Int) (mode : Nat) : Except Err ValidateOut :=
  match parse_py_ind q ind with
  | .error e => .error e
  | .ok _ =>
    match ind with
    | [] => .error .emptyIndexList
    | ind_rep :: tl =>
      -- k = ind.size() = tl.length + 1 throughout
      if axis_start < 0 then .error .negativeAxis
      else if mode ≠ 0 ∧ mode ≠ 1 then .error .invalidMode
      else if dst.writable = false then .error .notWritable
      else if axis_start.toNat + (tl.length + 1) > max src.nd 1 then .error .axesOutOfRange
      else if ¬ take_rank_ok src dst ind_rep (tl.length + 1) then .error .destRankMismatch
      else if orthog_shapes_equal src.shape dst.shape axis_start.toNat (tl.length + 1)
              ind_rep.nd = false then .error .orthogShapeMismatch
      else if orthog_count src.shape axis_start.toNat (tl.length + 1) = 0 then
        .ok .earlyReturn
      else if queues_compatible2 q src dst = false then .error .queueIncompat
      else if memoryOverlap src dst then .error .overlapError
      -- lines 340-345: resolve both type ids (each resolution raising
      -- UnsupportedType on an out-of-range typenum), then compare; the
      -- resolved id is the typenum itself on the dense range, so the
      -- resolutions and the comparison are inlined as three conditions
      else if num_types ≤ src.typenum then .error .unsupportedTypenum
      else if num_types ≤ dst.typenum then .error .unsupportedTypenum
      else if src.typenum ≠ dst.typenum then .error .typeMismatch
      -- lines 350-351: resolve the index arrays' type id
      else if num_types ≤ ind_rep.typenum then .error .unsupportedTypenum
      else if ind_axes_match ind_rep.shape dst.shape axis_start.toNat = false then
        .error .indShapeAxisMismatch
      else if dst.addressable <
          orthog_count src.shape axis_start.toNat (tl.length + 1) *
            ind_rep.shape.prod then
        .error .notAmple
      else
        match index_arrays_check q dst ind_rep ind_rep.typenum 0 (ind_rep :: tl) with
        | .error e => .error e
        | .ok _ =>
          if ind_rep.shape.prod = 0 then .ok .earlyReturn
          else .ok (.run src.typenum ind_rep.typenum (tl.length + 1)
                      (max ind_rep.nd 1) (max (src.nd - (tl.length + 1)) 1))

/-- The validation phase of `usm_ndarray_put` (lines 526-698), in source order.
It differs from `take_validate` in the operand roles (`dst` is indexed, `val`
supplies the values) and in that the capacity check
(`AmpleMemory(dst, dst_nelems)`, line 610) runs before type-id resolution and
uses the destination's own element count. -/
def put_validate (q : Nat) (dst : USMArray) (ind : List USMArray)
    (val : USMArray) (axis_start : Int) (mode : Nat) : Except Err ValidateOut :=
  match parse_py_ind q ind with
  | .error e => .error e
  | .ok _ =>
    match ind with
    | [] => .error .emptyIndexList
    | ind_rep :: tl =>
      -- k = ind.size() = tl.length + 1 throughout
      if axis_start < 0 then .error .negativeAxis
      else if mode ≠ 0 ∧ mode ≠ 1 then .error .invalidMode
      else if dst.writable = false then .error .notWritable
      else if axis_start.toNat + (tl.length + 1) > max dst.nd 1 then .error .axesOutOfRange
      else if ¬ take_rank_ok dst val ind_rep (tl.length + 1) then .error .destRankMismatch
      else if orthog_shapes_equal dst.shape val.shape axis_start.toNat (tl.length + 1)
              ind_rep.nd = false then .error .orthogShapeMismatch
      else if orthog_count dst.shape axis_start.toNat (tl.length + 1) = 0 then
        .ok .earlyReturn
      else if queues_compatible2 q dst val = false then .error .queueIncompat
      else if memoryOverlap val dst then .error .overlapError
      -- line 610: AmpleMemory(dst, dst_nelems) — before type resolution,
      -- against the destination's own element count
      else if dst.addressable < dst.size then .error .notAmple
      -- lines 612-620: type-id resolution and agreement, inlined as in
      -- take_validate
      else if num_types ≤ dst.typenum then .error .unsupportedTypenum
      else if num_types ≤ val.typenum then .error .unsupportedTypenum
      else if dst.typenum ≠ val.typenum then .error .typeMismatch
      else if num_types ≤ ind_rep.typenum then .error .unsupportedTypenum
      else if ind_axes_match ind_rep.shape val.shape axis_start.toNat = false then
        .error .indShapeAxisMismatch
      else
        match index_arrays_check q dst ind_rep ind_rep.typenum 0 (ind_rep :: tl) with
        | .error e => .error e
        | .ok _ =>
          if ind_rep.shape.prod = 0 then .ok .earlyReturn
          else .ok (.run dst.typenum ind_rep.typenum (tl.length + 1)
                      (max ind_rep.nd 1) (max (dst.nd - (tl.length + 1)) 1))

/-- The five packed scratch buffers, in the order `async_smart_free` receives
them (lines 504-508/773-777). -/
def scratch_tags : List AllocTag :=
  [.orthogShSt, .alongShSt, .indShSt, .indPtrs, .indOffsets]

/-- The five staging-copy events of `_populate_kernel_params`, in the order the
returned dependency vector lists them (lines 205-208). -/
def pack_copy_events : List Event :=
  [.copyEv 0, .copyEv 1, .copyEv 2, .copyEv 3, .copyEv 4]

/-- Effects of `_populate_kernel_params` (lines 75-210): five asynchronous
copies of host-staged metadata into the device scratch buffers, then a host
task, dependent on all five copies, that releases the host staging vectors.
The numeric contents of the staged metadata are not modelled. -/
def populate_kernel_params_effects : List Effect :=
  [.submitCopy (.copyEv 0), .submitCopy (.copyEv 1), .submitCopy (.copyEv 2),
   .submitCopy (.copyEv 3), .submitCopy (.copyEv 4),
   .submitHostTask pack_copy_events .shCleanupEv]

/-- The five `smart_malloc_device` scratch allocations of lines 430-468 /
700-737, with the source's size expressions. -/
def scratch_allocs (k ind_sh_elems orthog_sh_elems : Nat) : List Effect :=
  [.allocDevice .indPtrs k,
   .allocDevice .indShSt ((k + 1) * ind_sh_elems),
   .allocDevice .indOffsets k,
   .allocDevice .orthogShSt (3 * orthog_sh_elems),
   .allocDevice .alongShSt (2 * (k + ind_sh_elems))]

/-- The submission phase shared by `usm_ndarray_take` (lines 430-514) and
`usm_ndarray_put` (lines 700-783), whose bodies are textually parallel:
allocate the five device scratch buffers, run `_populate_kernel_params`, look
up the dispatch entry (`supported` is whether the
`(mode, data type, index type)` entry is non-null); a null entry waits for the
host tasks and raises; otherwise submit the compute kernel with the packing
copies and caller-supplied events as dependencies, schedule `async_smart_free`
of all scratch buffers after the compute event, and pin the arguments with
`keep_args_alive`.

`async_smart_free` (`utils/sycl_alloc_utils.hpp`) is not under `src/`; it is
modelled from the spec (§4.4/§6: "asynchronous release of a device-resident
allocation contingent on a completion handle") as the single `asyncFree`
effect. -/
def submit_phase (supported : Bool) (k ind_sh_elems orthog_sh_elems : Nat)
    (depends : List Event) : List Effect × Except Err (Event × Event) :=
  if supported then
    (scratch_allocs k ind_sh_elems orthog_sh_elems ++ populate_kernel_params_effects ++
      [.submitKernel (pack_copy_events ++ depends) .computeEv,
       .asyncFree [.computeEv] scratch_tags .tempFreeEv,
       .keepAlive [.shCleanupEv, .tempFreeEv] .argKeepEv],
     .ok (.argKeepEv, .computeEv))
  else
    (scratch_allocs k ind_sh_elems orthog_sh_elems ++ populate_kernel_params_effects ++
      [.waitEvents [.shCleanupEv]],
     .error .unsupportedOpForTypes)

/-- `usm_ndarray_take` (lines 246-515).  `tbl mode data_t ind_t` is whether the
`take_dispatch_table[mode][data_t][ind_t]` entry is non-null; the table is a
process global in the source and a parameter here. -/
def usm_ndarray_take (tbl : Nat → Nat → Nat → Bool) (q : Nat) (src : USMArray)
    (ind : List USMArray) (dst : USMArray) (axis_start : Int) (mode : Nat)
    (depends : List Event) : List Effect × Except Err (Event × Event) :=
  match take_validate q src ind dst axis_start mode with
  | .error e => ([], .error e)
  | .ok .earlyReturn => ([], .ok (.defaultEv, .defaultEv))
  | .ok (.run data_t ind_t k ish osh) =>
    submit_phase (tbl mode data_t ind_t) k ish osh depends

/-- `usm_ndarray_put` (lines 517-784), over `put_dispatch_table`. -/
def usm_ndarray_put (tbl : Nat → Nat → Nat → Bool) (q : Nat) (dst : USMArray)
    (ind : List USMArray) (val : USMArray) (axis_start : Int) (mode : Nat)
    (depends : List Event) : List Effect × Except Err (Event × Event) :=
  match put_validate q dst ind val axis_start mode with
  | .error e => ([], .error e)
  | .ok .earlyReturn => ([], .ok (.defaultEv, .defaultEv))
  | .ok (.run data_t ind_t k ish osh) =>
    submit_phase (tbl mode data_t ind_t) k ish osh depends

/-- Modelled from the spec: §4.5/§8 — the `wrap` addressing mode of the take/put
kernels (`kernels/integer_advanced_indexing.hpp`, not under `src/`): "modulo
into valid range". -/
def wrap_index (len : Nat) (i : Int) : Int := i % (len : Int)

/-- Modelled from the spec: §4.5/§8 — the `clip` addressing mode: "saturate to
valid range". -/
def clip_index (len : Nat) (i : Int) : Int := max 0 (min i ((len : Int) - 1))

/-- Index remapping chosen by the mode: `WRAP_MODE = 0`, `CLIP_MODE = 1`
(lines 49-51). -/
def project_index (mode : Nat) (len : Nat) (i : Int) : Int :=
  if mode = 0 then wrap_index len i else clip_index len i

/-- Modelled from the spec: a single-axis model of the take kernel's gather —
each index is remapped by the mode and the element at the remapped position is
read. -/
def take_1d (xs : List Int) (inds : List Int) (mode : Nat) : List Int :=
  inds.map fun i => xs.getD (project_index mode xs.length i).toNat 0

/-- Modelled from the spec: §4.4/§4.5 — the put kernel (not under `src/`)
performs one element store per (orthogonal position, index element) pair, so a
call writes `orthog_nelems * ind_nelems` elements into the destination. -/
def put_write_count (dst : USMArray) (a k : Nat) (ind_rep : USMArray) : Nat :=
  orthog_count dst.shape a k * ind_rep.shape.prod

/-! ## Inversion lemmas about the validation phases -/

theorem parse_go_error_cases {q : Nat} :
    ∀ {nd : Option Nat} {l : List USMArray} {e : Err},
      parse_go q nd l = .error e →
      e = .indexQueueIncompat ∨ e = .indexNdimMismatch := by
  intro nd l
  induction l generalizing nd with
  | nil => intro e h; exact Except.noConfusion h
  | cons a rest ih =>
    intro e h
    unfold parse_go at h
    split at h
    · split at h
      · split at h
        · exact ih h
        · exact Or.inr (Except.error.inj h).symm
      · exact ih h
    · exact Or.inl (Except.error.inj h).symm

theorem index_array_step_error_cases {rep a : USMArray} {ind_t i : Nat} {e : Err}
    (h : index_array_step rep a ind_t i = .error e) :
    e = .indexDimsMismatch ∨ e = .unsupportedTypenum ∨ e = .indexTypeMismatch ∨
      e = .indexShapeMismatch := by
  unfold index_array_step at h
  split at h
  · exact Except.noConfusion h
  split at h
  · exact Or.inl (Except.error.inj h).symm
  split at h
  · exact Or.inr (Or.inl (Except.error.inj h).symm)
  split at h
  · exact Or.inr (Or.inr (Or.inl (Except.error.inj h).symm))
  split at h
  · exact Or.inr (Or.inr (Or.inr (Except.error.inj h).symm))
  · exact Except.noConfusion h

theorem index_arrays_check_error_cases {q : Nat} {dst rep : USMArray} {t : Nat} :
    ∀ {i : Nat} {l : List USMArray} {e : Err},
      index_arrays_check q dst rep t i l = .error e →
      e = .queueIncompat ∨ e = .indexDimsMismatch ∨ e = .unsupportedTypenum ∨
        e = .indexTypeMismatch ∨ e = .indexShapeMismatch ∨ e = .indexOverlap := by
  intro i l
  induction l generalizing i with
  | nil => intro e h; exact Except.noConfusion h
  | cons a rest ih =>
    intro e h
    unfold index_arrays_check at h
    split at h
    · split at h
      · rename_i e0 heq
        obtain rfl : e0 = e := Except.error.inj h
        rcases index_array_step_error_cases heq with h1 | h1 | h1 | h1 <;> simp [h1]
      · split at h
        · exact Or.inr (Or.inr (Or.inr (Or.inr (Or.inr (Except.error.inj h).symm))))
        · exact ih h
    · exact Or.inl (Except.error.inj h).symm

/-- Inverting a successful `take_validate`: an early return implies one of the
two element counts is zero; a run outcome implies the mode was valid, the rank
relation holds, both element counts are nonzero, and the capacity check
passed. -/
theorem take_validate_ok_inv {q : Nat} {src rep dst : USMArray}
    {tl : List USMArray} {ax : Int} {mode : Nat} {v : ValidateOut}
    (h : take_validate q src (rep :: tl) dst ax mode = .ok v) :
    (v = .earlyReturn →
      orthog_count src.shape ax.toNat (tl.length + 1) = 0 ∨ rep.shape.prod = 0) ∧
    (∀ s t k ish osh, v = .run s t k ish osh →
      (mode = 0 ∨ mode = 1) ∧
      take_rank_ok src dst rep (tl.length + 1) ∧
      orthog_count src.shape ax.toNat (tl.length + 1) ≠ 0 ∧
      rep.shape.prod ≠ 0 ∧
      orthog_count src.shape ax.toNat (tl.length + 1) * rep.shape.prod ≤
        dst.addressable) := by
  unfold take_validate at h
  split at h
  · exact Except.noConfusion h
  split at h
  · exact Except.noConfusion h
  rename_i a0 rest0 heq0
  injection heq0 with e1 e2
  subst e1; subst e2
  by_cases hc1 : ax < 0
  · rw [if_pos hc1] at h; exact Except.noConfusion h
  rw [if_neg hc1] at h
  by_cases hc2 : mode ≠ 0 ∧ mode ≠ 1
  · rw [if_pos hc2] at h; exact Except.noConfusion h
  rw [if_neg hc2] at h
  by_cases hc3 : dst.writable = false
  · rw [if_pos hc3] at h; exact Except.noConfusion h
  rw [if_neg hc3] at h
  by_cases hc4 : ax.toNat + (tl.length + 1) > max src.nd 1
  · rw [if_pos hc4] at h; exact Except.noConfusion h
  rw [if_neg hc4] at h
  by_cases hc5 : ¬ take_rank_ok src dst rep (tl.length + 1)
  · rw [if_pos hc5] at h; exact Except.noConfusion h
  rw [if_neg hc5] at h
  by_cases hc6 : orthog_shapes_equal src.shape dst.shape ax.toNat (tl.length + 1)
      rep.nd = false
  · rw [if_pos hc6] at h; exact Except.noConfusion h
  rw [if_neg hc6] at h
  by_cases hc7 : orthog_count src.shape ax.toNat (tl.length + 1) = 0
  · rw [if_pos hc7] at h
    refine ⟨fun _ => Or.inl hc7, fun s t k ish osh hv => ?_⟩
    exact ValidateOut.noConfusion ((Except.ok.inj h).trans hv)
  rw [if_neg hc7] at h
  by_cases hc8 : queues_compatible2 q src dst = false
  · rw [if_pos hc8] at h; exact Except.noConfusion h
  rw [if_neg hc8] at h
  by_cases hc9 : memoryOverlap src dst
  · rw [if_pos hc9] at h; exact Except.noConfusion h
  rw [if_neg hc9] at h
  by_cases hc10 : num_types ≤ src.typenum
  · rw [if_pos hc10] at h; exact Except.noConfusion h
  rw [if_neg hc10] at h
  by_cases hc11 : num_types ≤ dst.typenum
  · rw [if_pos hc11] at h; exact Except.noConfusion h
  rw [if_neg hc11] at h
  by_cases hc12 : src.typenum ≠ dst.typenum
  · rw [if_pos hc12] at h; exact Except.noConfusion h
  rw [if_neg hc12] at h
  by_cases hc13 : num_types ≤ rep.typenum
  · rw [if_pos hc13] at h; exact Except.noConfusion h
  rw [if_neg hc13] at h
  by_cases hc14 : ind_axes_match rep.shape dst.shape ax.toNat = false
  · rw [if_pos hc14] at h; exact Except.noConfusion h
  rw [if_neg hc14] at h
  by_cases hc15 : dst.addressable <
      orthog_count src.shape ax.toNat (tl.length + 1) * rep.shape.prod
  · rw [if_pos hc15] at h; exact Except.noConfusion h
  rw [if_neg hc15] at h
  cases hic : index_arrays_check q dst rep rep.typenum 0 (rep :: tl) with
  | error e => rw [hic] at h; exact Except.noConfusion h
  | ok u =>
    rw [hic] at h
    replace h : (if rep.shape.prod = 0 then (Except.ok ValidateOut.earlyReturn :
          Except Err ValidateOut)
        else Except.ok (ValidateOut.run src.typenum rep.typenum (tl.length + 1)
          (max rep.nd 1) (max (src.nd - (tl.length + 1)) 1))) = Except.ok v := h
    by_cases hc16 : rep.shape.prod = 0
    · rw [if_pos hc16] at h
      refine ⟨fun _ => Or.inr hc16, fun s t k ish osh hv => ?_⟩
      exact ValidateOut.noConfusion ((Except.ok.inj h).trans hv)
    rw [if_neg hc16] at h
    refine ⟨fun hv => ?_, fun s t k ish osh hv => ?_⟩
    · exact ValidateOut.noConfusion ((Except.ok.inj h).trans hv)
    · exact ⟨by omega, not_not.mp hc5, hc7, hc16, by omega⟩

/-- Inverting a successful `put_validate`: an early return implies the
orthogonal count is zero or the index element count is zero with the capacity
check passed; a run outcome implies mode validity, the rank relation, nonzero
element counts and the capacity check. -/
theorem put_validate_ok_inv {q : Nat} {dst rep val : USMArray}
    {tl : List USMArray} {ax : Int} {mode : Nat} {v : ValidateOut}
    (h : put_validate q dst (rep :: tl) val ax mode = .ok v) :
    (v = .earlyReturn →
      orthog_count dst.shape ax.toNat (tl.length + 1) = 0 ∨
        (rep.shape.prod = 0 ∧ dst.size ≤ dst.addressable)) ∧
    (∀ s t k ish osh, v = .run s t k ish osh →
      (mode = 0 ∨ mode = 1) ∧
      take_rank_ok dst val rep (tl.length + 1) ∧
      orthog_count dst.shape ax.toNat (tl.length + 1) ≠ 0 ∧
      rep.shape.prod ≠ 0 ∧
      dst.size ≤ dst.addressable) := by
  unfold put_validate at h
  split at h
  · exact Except.noConfusion h
  split at h
  · exact Except.noConfusion h
  rename_i a0 rest0 heq0
  injection heq0 with e1 e2
  subst e1; subst e2
  by_cases hc1 : ax < 0
  · rw [if_pos hc1] at h; exact Except.noConfusion h
  rw [if_neg hc1] at h
  by_cases hc2 : mode ≠ 0 ∧ mode ≠ 1
  · rw [if_pos hc2] at h; exact Except.noConfusion h
  rw [if_neg hc2] at h
  by_cases hc3 : dst.writable = false
  · rw [if_pos hc3] at h; exact Except.noConfusion h
  rw [if_neg hc3] at h
  by_cases hc4 : ax.toNat + (tl.length + 1) > max dst.nd 1
  · rw [if_pos hc4] at h; exact Except.noConfusion h
  rw [if_neg hc4] at h
  by_cases hc5 : ¬ take_rank_ok dst val rep (tl.length + 1)
  · rw [if_pos hc5] at h; exact Except.noConfusion h
  rw [if_neg hc5] at h
  by_cases hc6 : orthog_shapes_equal dst.shape val.shape ax.toNat (tl.length + 1)
      rep.nd = false
  · rw [if_pos hc6] at h; exact Except.noConfusion h
  rw [if_neg hc6] at h
  by_cases hc7 : orthog_count dst.shape ax.toNat (tl.length + 1) = 0
  · rw [if_pos hc7] at h
    refine ⟨fun _ => Or.inl hc7, fun s t k ish osh hv => ?_⟩
    exact ValidateOut.noConfusion ((Except.ok.inj h).trans hv)
  rw [if_neg hc7] at h
  by_cases hc8 : queues_compatible2 q dst val = false
  · rw [if_pos hc8] at h; exact Except.noConfusion h
  rw [if_neg hc8] at h
  by_cases hc9 : memoryOverlap val dst
  · rw [if_pos hc9] at h; exact Except.noConfusion h
  rw [if_neg hc9] at h
  by_cases hc10 : dst.addressable < dst.size
  · rw [if_pos hc10] at h; exact Except.noConfusion h
  rw [if_neg hc10] at h
  by_cases hc11 : num_types ≤ dst.typenum
  · rw [if_pos hc11] at h; exact Except.noConfusion h
  rw [if_neg hc11] at h
  by_cases hc12 : num_types ≤ val.typenum
  · rw [if_pos hc12] at h; exact Except.noConfusion h
  rw [if_neg hc12] at h
  by_cases hc13 : dst.typenum ≠ val.typenum
  · rw [if_pos hc13] at h; exact Except.noConfusion h
  rw [if_neg hc13] at h
  by_cases hc14 : num_types ≤ rep.typenum
  · rw [if_pos hc14] at h; exact Except.noConfusion h
  rw [if_neg hc14] at h
  by_cases hc15 : ind_axes_match rep.shape val.shape ax.toNat = false
  · rw [if_pos hc15] at h; exact Except.noConfusion h
  rw [if_neg hc15] at h
  cases hic : index_arrays_check q dst rep rep.typenum 0 (rep :: tl) with
  | error e => rw [hic] at h; exact Except.noConfusion h
  | ok u =>
    rw [hic] at h
    replace h : (if rep.shape.prod = 0 then (Except.ok ValidateOut.earlyReturn :
          Except Err ValidateOut)
        else Except.ok (ValidateOut.run dst.typenum rep.typenum (tl.length + 1)
          (max rep.nd 1) (max (dst.nd - (tl.length + 1)) 1))) = Except.ok v := h
    by_cases hc16 : rep.shape.prod = 0
    · rw [if_pos hc16] at h
      refine ⟨fun _ => Or.inr ⟨hc16, by omega⟩, fun s t k ish osh hv => ?_⟩
      exact ValidateOut.noConfusion ((Except.ok.inj h).trans hv)
    rw [if_neg hc16] at h
    refine ⟨fun hv => ?_, fun s t k ish osh hv => ?_⟩
    · exact ValidateOut.noConfusion ((Except.ok.inj h).trans hv)
    · exact ⟨by omega, not_not.mp hc5, hc7, hc16, by omega⟩

/-- `take_validate` reports a destination-rank mismatch only when the rank
relation actually fails. -/
theorem take_validate_rank_err_inv {q : Nat} {src rep dst : USMArray}
    {tl : List USMArray} {ax : Int} {mode : Nat}
    (h : take_validate q src (rep :: tl) dst ax mode = .error .destRankMismatch) :
    ¬ take_rank_ok src dst rep (tl.length + 1) := by
  unfold take_validate at h
  split at h
  · rename_i e0 heq
    obtain rfl : e0 = .destRankMismatch := Except.error.inj h
    rcases parse_go_error_cases heq with h1 | h1 <;> exact Err.noConfusion h1
  split at h
  · exact Err.noConfusion (Except.error.inj h)
  rename_i a0 rest0 heq0
  injection heq0 with e1 e2
  subst e1; subst e2
  by_cases hc1 : ax < 0
  · rw [if_pos hc1] at h; exact Err.noConfusion (Except.error.inj h)
  rw [if_neg hc1] at h
  by_cases hc2 : mode ≠ 0 ∧ mode ≠ 1
  · rw [if_pos hc2] at h; exact Err.noConfusion (Except.error.inj h)
  rw [if_neg hc2] at h
  by_cases hc3 : dst.writable = false
  · rw [if_pos hc3] at h; exact Err.noConfusion (Except.error.inj h)
  rw [if_neg hc3] at h
  by_cases hc4 : ax.toNat + (tl.length + 1) > max src.nd 1
  · rw [if_pos hc4] at h; exact Err.noConfusion (Except.error.inj h)
  rw [if_neg hc4] at h
  by_cases hc5 : ¬ take_rank_ok src dst rep (tl.length + 1)
  · exact hc5
  rw [if_neg hc5] at h
  by_cases hc6 : orthog_shapes_equal src.shape dst.shape ax.toNat (tl.length + 1)
      rep.nd = false
  · rw [if_pos hc6] at h; exact Err.noConfusion (Except.error.inj h)
  rw [if_neg hc6] at h
  by_cases hc7 : orthog_count src.shape ax.toNat (tl.length + 1) = 0
  · rw [if_pos hc7] at h; exact Except.noConfusion h
  rw [if_neg hc7] at h
  by_cases hc8 : queues_compatible2 q src dst = false
  · rw [if_pos hc8] at h; exact Err.noConfusion (Except.error.inj h)
  rw [if_neg hc8] at h
  by_cases hc9 : memoryOverlap src dst
  · rw [if_pos hc9] at h; exact Err.noConfusion (Except.error.inj h)
  rw [if_neg hc9] at h
  by_cases hc10 : num_types ≤ src.typenum
  · rw [if_pos hc10] at h; exact Err.noConfusion (Except.error.inj h)
  rw [if_neg hc10] at h
  by_cases hc11 : num_types ≤ dst.typenum
  · rw [if_pos hc11] at h; exact Err.noConfusion (Except.error.inj h)
  rw [if_neg hc11] at h
  by_cases hc12 : src.typenum ≠ dst.typenum
  · rw [if_pos hc12] at h; exact Err.noConfusion (Except.error.inj h)
  rw [if_neg hc12] at h
  by_cases hc13 : num_types ≤ rep.typenum
  · rw [if_pos hc13] at h; exact Err.noConfusion (Except.error.inj h)
  rw [if_neg hc13] at h
  by_cases hc14 : ind_axes_match rep.shape dst.shape ax.toNat = false
  · rw [if_pos hc14] at h; exact Err.noConfusion (Except.error.inj h)
  rw [if_neg hc14] at h
  by_cases hc15 : dst.addressable <
      orthog_count src.shape ax.toNat (tl.length + 1) * rep.shape.prod
  · rw [if_pos hc15] at h; exact Err.noConfusion (Except.error.inj h)
  rw [if_neg hc15] at h
  cases hic : index_arrays_check q dst rep rep.typenum 0 (rep :: tl) with
  | error e =>
    rw [hic] at h
    have he : e = Err.destRankMismatch := Except.error.inj h
    subst he
    rcases index_arrays_check_error_cases hic with h1 | h1 | h1 | h1 | h1 | h1 <;>
      exact Err.noConfusion h1
  | ok u =>
    rw [hic] at h
    replace h : (if rep.shape.prod = 0 then (Except.ok ValidateOut.earlyReturn :
          Except Err ValidateOut)
        else Except.ok (ValidateOut.run src.typenum rep.typenum (tl.length + 1)
          (max rep.nd 1) (max (src.nd - (tl.length + 1)) 1))) =
        Except.error Err.destRankMismatch := h
    by_cases hc16 : rep.shape.prod = 0
    · rw [if_pos hc16] at h; exact Except.noConfusion h
    · rw [if_neg hc16] at h; exact Except.noConfusion h

/-- `put_validate` reports a value-rank mismatch only when the rank relation
actually fails. -/
theorem put_validate_rank_err_inv {q : Nat} {dst rep val : USMArray}
    {tl : List USMArray} {ax : Int} {mode : Nat}
    (h : put_validate q dst (rep :: tl) val ax mode = .error .destRankMismatch) :
    ¬ take_rank_ok dst val rep (tl.length + 1) := by
  unfold put_validate at h
  split at h
  · rename_i e0 heq
    obtain rfl : e0 = .destRankMismatch := Except.error.inj h
    rcases parse_go_error_cases heq with h1 | h1 <;> exact Err.noConfusion h1
  split at h
  · exact Err.noConfusion (Except.error.inj h)
  rename_i a0 rest0 heq0
  injection heq0 with e1 e2
  subst e1; subst e2
  by_cases hc1 : ax < 0
  · rw [if_pos hc1] at h; exact Err.noConfusion (Except.error.inj h)
  rw [if_neg hc1] at h
  by_cases hc2 : mode ≠ 0 ∧ mode ≠ 1
  · rw [if_pos hc2] at h; exact Err.noConfusion (Except.error.inj h)
  rw [if_neg hc2] at h
  by_cases hc3 : dst.writable = false
  · rw [if_pos hc3] at h; exact Err.noConfusion (Except.error.inj h)
  rw [if_neg hc3] at h
  by_cases hc4 : ax.toNat + (tl.length + 1) > max dst.nd 1
  · rw [if_pos hc4] at h; exact Err.noConfusion (Except.error.inj h)
  rw [if_neg hc4] at h
  by_cases hc5 : ¬ take_rank_ok dst val rep (tl.length + 1)
  · exact hc5
  rw [if_neg hc5] at h
  by_cases hc6 : orthog_shapes_equal dst.shape val.shape ax.toNat (tl.length + 1)
      rep.nd = false
  · rw [if_pos hc6] at h; exact Err.noConfusion (Except.error.inj h)
  rw [if_neg hc6] at h
  by_cases hc7 : orthog_count dst.shape ax.toNat (tl.length + 1) = 0
  · rw [if_pos hc7] at h; exact Except.noConfusion h
  rw [if_neg hc7] at h
  by_cases hc8 : queues_compatible2 q dst val = false
  · rw [if_pos hc8] at h; exact Err.noConfusion (Except.error.inj h)
  rw [if_neg hc8] at h
  by_cases hc9 : memoryOverlap val dst
  · rw [if_pos hc9] at h; exact Err.noConfusion (Except.error.inj h)
  rw [if_neg hc9] at h
  by_cases hc10 : dst.addressable < dst.size
  · rw [if_pos hc10] at h; exact Err.noConfusion (Except.error.inj h)
  rw [if_neg hc10] at h
  by_cases hc11 : num_types ≤ dst.typenum
  · rw [if_pos hc11] at h; exact Err.noConfusion (Except.error.inj h)
  rw [if_neg hc11] at h
  by_cases hc12 : num_types ≤ val.typenum
  · rw [if_pos hc12] at h; exact Err.noConfusion (Except.error.inj h)
  rw [if_neg hc12] at h
  by_cases hc13 : dst.typenum ≠ val.typenum
  · rw [if_pos hc13] at h; exact Err.noConfusion (Except.error.inj h)
  rw [if_neg hc13] at h
  by_cases hc14 : num_types ≤ rep.typenum
  · rw [if_pos hc14] at h; exact Err.noConfusion (Except.error.inj h)
  rw [if_neg hc14] at h
  by_cases hc15 : ind_axes_match rep.shape val.shape ax.toNat = false
  · rw [if_pos hc15] at h; exact Err.noConfusion (Except.error.inj h)
  rw [if_neg hc15] at h
  cases hic : index_arrays_check q dst rep rep.typenum 0 (rep :: tl) with
  | error e =>
    rw [hic] at h
    have he : e = Err.destRankMismatch := Except.error.inj h
    subst he
    rcases index_arrays_check_error_cases hic with h1 | h1 | h1 | h1 | h1 | h1 <;>
      exact Err.noConfusion h1
  | ok u =>
    rw [hic] at h
    replace h : (if rep.shape.prod = 0 then (Except.ok ValidateOut.earlyReturn :
          Except Err ValidateOut)
        else Except.ok (ValidateOut.run dst.typenum rep.typenum (tl.length + 1)
          (max rep.nd 1) (max (dst.nd - (tl.length + 1)) 1))) =
        Except.error Err.destRankMismatch := h
    by_cases hc16 : rep.shape.prod = 0
    · rw [if_pos hc16] at h; exact Except.noConfusion h
    · rw [if_neg hc16] at h; exact Except.noConfusion h

/-! ## Concrete instances used by counterexamples and witnesses -/

/-- A dispatch table with every entry populated. -/
def tblAll : Nat → Nat → Nat → Bool := fun _ _ _ => true

/-- A dispatch table with every entry null (e.g. the column of a non-integer
index type in the real tables). -/
def tblNone : Nat → Nat → Nat → Bool := fun _ _ _ => false

/-- Concrete sample array: contiguous strides, writable, allocated on queue 0,
living alone on memory block `mem` with addressable element count `addr`. -/
def mkArr (shape : List Nat) (typenum mem addr : Nat) : USMArray :=
  { shape := shape, strides := List.replicate shape.length 1, typenum := typenum,
    writable := true, queue := 0, memId := mem, memLo := 0, memHi := 0,
    addressable := addr }

/-! ## Claim C9 -/

/-- **C9**: with an empty list of index arrays, both `usm_ndarray_take` and
`usm_ndarray_put` raise the "List of indices is empty." value error rather
than performing a no-op, and no device work is submitted (the effect trace is
empty), whatever the other arguments are. -/
theorem take_put_empty_index_list_raises (tbl : Nat → Nat → Nat → Bool) (q : Nat)
    (a b : USMArray) (ax : Int) (mode : Nat) (deps : List Event) :
    usm_ndarray_take tbl q a [] b ax mode deps = ([], .error .emptyIndexList) ∧
    usm_ndarray_put tbl q a [] b ax mode deps = ([], .error .emptyIndexList) :=
  ⟨rfl, rfl⟩

/-! ## Claim C1 -/

/-- **C1** counterexample: a `usm_ndarray_take` call whose dispatch entry is
null raises the unsupported-operation error, but only *after* device scratch
allocation has occurred and asynchronous packing copies have been submitted —
contradicting "without any device submission and without any device scratch
allocation having occurred". -/
theorem take_null_entry_counterexample :
    (usm_ndarray_take tblNone 0 (mkArr [2] 0 0 2) [mkArr [2] 1 2 2]
        (mkArr [2] 0 1 2) 0 0 []).2 = .error .unsupportedOpForTypes ∧
    Effect.allocDevice .indPtrs 1 ∈
      (usm_ndarray_take tblNone 0 (mkArr [2] 0 0 2) [mkArr [2] 1 2 2]
        (mkArr [2] 0 1 2) 0 0 []).1 ∧
    Effect.submitCopy (.copyEv 0) ∈
      (usm_ndarray_take tblNone 0 (mkArr [2] 0 0 2) [mkArr [2] 1 2 2]
        (mkArr [2] 0 1 2) 0 0 []).1 := by
  refine ⟨rfl, ?_, ?_⟩ <;> decide

/-- **C1** (amended): every error of `usm_ndarray_take` / `usm_ndarray_put` is
raised before the compute kernel is submitted; every error *other than* the
null-dispatch-entry (unsupported-operation) error is raised before any device
submission and before any device scratch allocation (the trace is empty).  The
null-entry error itself is raised only after the scratch allocations and
packing-copy submissions, as the counterexample shows. -/
theorem take_put_errors_before_compute_submission :
    (∀ tbl q src ind dst ax mode deps tr e,
      usm_ndarray_take tbl q src ind dst ax mode deps = (tr, .error e) →
      (∀ ds ev, Effect.submitKernel ds ev ∉ tr) ∧
        (e ≠ .unsupportedOpForTypes → tr = [])) ∧
    (∀ tbl q dst ind val ax mode deps tr e,
      usm_ndarray_put tbl q dst ind val ax mode deps = (tr, .error e) →
      (∀ ds ev, Effect.submitKernel ds ev ∉ tr) ∧
        (e ≠ .unsupportedOpForTypes → tr = [])) := by
  constructor
  · intro tbl q src ind dst ax mode deps tr e h
    unfold usm_ndarray_take at h
    split at h
    · rw [Prod.mk.injEq] at h
      obtain ⟨h1, -⟩ := h
      subst h1
      exact ⟨fun ds ev => by simp, fun _ => rfl⟩
    · rw [Prod.mk.injEq] at h; simp at h
    · unfold submit_phase at h
      split at h
      · rw [Prod.mk.injEq] at h; simp at h
      · rw [Prod.mk.injEq] at h
        obtain ⟨h1, h2⟩ := h
        subst h1
        refine ⟨fun ds ev => ?_, fun hne => ?_⟩
        · simp [scratch_allocs, populate_kernel_params_effects, pack_copy_events]
        · exact absurd (Except.error.inj h2).symm hne
  · intro tbl q dst ind val ax mode deps tr e h
    unfold usm_ndarray_put at h
    split at h
    · rw [Prod.mk.injEq] at h
      obtain ⟨h1, -⟩ := h
      subst h1
      exact ⟨fun ds ev => by simp, fun _ => rfl⟩
    · rw [Prod.mk.injEq] at h; simp at h
    · unfold submit_phase at h
      split at h
      · rw [Prod.mk.injEq] at h; simp at h
      · rw [Prod.mk.injEq] at h
        obtain ⟨h1, h2⟩ := h
        subst h1
        refine ⟨fun ds ev => ?_, fun hne => ?_⟩
        · simp [scratch_allocs, populate_kernel_params_effects, pack_copy_events]
        · exact absurd (Except.error.inj h2).symm hne

/-- Witness for the amended C1 at a concrete null-entry call: the compute
kernel is not submitted there. -/
theorem take_put_errors_before_compute_submission_witness :
    Effect.submitKernel pack_copy_events .computeEv ∉
      (usm_ndarray_take tblNone 0 (mkArr [2] 0 0 2) [mkArr [2] 1 2 2]
        (mkArr [2] 0 1 2) 0 0 []).1 := by
  have h2 : (usm_ndarray_take tblNone 0 (mkArr [2] 0 0 2) [mkArr [2] 1 2 2]
      (mkArr [2] 0 1 2) 0 0 []).2 = .error .unsupportedOpForTypes := rfl
  have h0 : usm_ndarray_take tblNone 0 (mkArr [2] 0 0 2) [mkArr [2] 1 2 2]
      (mkArr [2] 0 1 2) 0 0 [] =
      ((usm_ndarray_take tblNone 0 (mkArr [2] 0 0 2) [mkArr [2] 1 2 2]
        (mkArr [2] 0 1 2) 0 0 []).1, .error .unsupportedOpForTypes) := by
    rw [← h2]
  exact (take_put_errors_before_compute_submission.1 _ _ _ _ _ _ _ _ _ _ h0).1
    pack_copy_events .computeEv

/-- Unfolding of `take_validate` after a successful parse of a nonempty index
list: the body from the axis-sign check on. -/
theorem take_validate_cons {q : Nat} {src rep dst : USMArray} {tl : List USMArray}
    {ax : Int} {mode : Nat} (hp : parse_py_ind q (rep :: tl) = .ok ()) :
    take_validate q src (rep :: tl) dst ax mode =
      (if ax < 0 then .error .negativeAxis
       else if mode ≠ 0 ∧ mode ≠ 1 then .error .invalidMode
       else if dst.writable = false then .error .notWritable
       else if ax.toNat + (tl.length + 1) > max src.nd 1 then .error .axesOutOfRange
       else if ¬ take_rank_ok src dst rep (tl.length + 1) then .error .destRankMismatch
       else if orthog_shapes_equal src.shape dst.shape ax.toNat (tl.length + 1)
               rep.nd = false then .error .orthogShapeMismatch
       else if orthog_count src.shape ax.toNat (tl.length + 1) = 0 then
         .ok .earlyReturn
       else if queues_compatible2 q src dst = false then .error .queueIncompat
       else if memoryOverlap src dst then .error .overlapError
       else if num_types ≤ src.typenum then .error .unsupportedTypenum
       else if num_types ≤ dst.typenum then .error .unsupportedTypenum
       else if src.typenum ≠ dst.typenum then .error .typeMismatch
       else if num_types ≤ rep.typenum then .error .unsupportedTypenum
       else if ind_axes_match rep.shape dst.shape ax.toNat = false then
         .error .indShapeAxisMismatch
       else if dst.addressable <
           orthog_count src.shape ax.toNat (tl.length + 1) * rep.shape.prod then
         .error .notAmple
       else
         match index_arrays_check q dst rep rep.typenum 0 (rep :: tl) with
         | .error e => .error e
         | .ok _ =>
           if rep.shape.prod = 0 then .ok .earlyReturn
           else .ok (.run src.typenum rep.typenum (tl.length + 1)
                       (max rep.nd 1) (max (src.nd - (tl.length + 1)) 1))) := by
  unfold take_validate
  rw [hp]

/-- Unfolding of `put_validate` after a successful parse of a nonempty index
list. -/
theorem put_validate_cons {q : Nat} {dst rep val : USMArray} {tl : List USMArray}
    {ax : Int} {mode : Nat} (hp : parse_py_ind q (rep :: tl) = .ok ()) :
    put_validate q dst (rep :: tl) val ax mode =
      (if ax < 0 then .error .negativeAxis
       else if mode ≠ 0 ∧ mode ≠ 1 then .error .invalidMode
       else if dst.writable = false then .error .notWritable
       else if ax.toNat + (tl.length + 1) > max dst.nd 1 then .error .axesOutOfRange
       else if ¬ take_rank_ok dst val rep (tl.length + 1) then .error .destRankMismatch
       else if orthog_shapes_equal dst.shape val.shape ax.toNat (tl.length + 1)
               rep.nd = false then .error .orthogShapeMismatch
       else if orthog_count dst.shape ax.toNat (tl.length + 1) = 0 then
         .ok .earlyReturn
       else if queues_compatible2 q dst val = false then .error .queueIncompat
       else if memoryOverlap val dst then .error .overlapError
       else if dst.addressable < dst.size then .error .notAmple
       else if num_types ≤ dst.typenum then .error .unsupportedTypenum
       else if num_types ≤ val.typenum then .error .unsupportedTypenum
       else if dst.typenum ≠ val.typenum then .error .typeMismatch
       else if num_types ≤ rep.typenum then .error .unsupportedTypenum
       else if ind_axes_match rep.shape val.shape ax.toNat = false then
         .error .indShapeAxisMismatch
       else
         match index_arrays_check q dst rep rep.typenum 0 (rep :: tl) with
         | .error e => .error e
         | .ok _ =>
           if rep.shape.prod = 0 then .ok .earlyReturn
           else .ok (.run dst.typenum rep.typenum (tl.length + 1)
                       (max rep.nd 1) (max (dst.nd - (tl.length + 1)) 1))) := by
  unfold put_validate
  rw [hp]

/-! ## Claim C10 -/

/-- **C10**: with a mode other than 0 (wrap) and 1 (clip), both operations
raise the "Mode must be 0 or 1." value error with an empty effect trace,
before any buffer validation beyond the index-list checks of `parse_py_ind`
(the statement assumes nothing about writability, types, shapes, overlap or
capacity of the buffers); consequently any call whose trace is nonempty — in
particular any call that reaches the dispatch-table lookup — has mode 0 or
1. -/
theorem take_put_invalid_mode :
    (∀ (tbl : Nat → Nat → Nat → Bool) q src rep (tl : List USMArray) dst ax mode
        deps,
      parse_py_ind q (rep :: tl) = .ok () → ¬ (ax < 0) → mode ≠ 0 → mode ≠ 1 →
      usm_ndarray_take tbl q src (rep :: tl) dst ax mode deps =
        ([], .error .invalidMode)) ∧
    (∀ (tbl : Nat → Nat → Nat → Bool) q dst rep (tl : List USMArray) val ax mode
        deps,
      parse_py_ind q (rep :: tl) = .ok () → ¬ (ax < 0) → mode ≠ 0 → mode ≠ 1 →
      usm_ndarray_put tbl q dst (rep :: tl) val ax mode deps =
        ([], .error .invalidMode)) ∧
    (∀ (tbl : Nat → Nat → Nat → Bool) q src ind dst ax mode deps,
      (usm_ndarray_take tbl q src ind dst ax mode deps).1 ≠ [] →
      mode = 0 ∨ mode = 1) ∧
    (∀ (tbl : Nat → Nat → Nat → Bool) q dst ind val ax mode deps,
      (usm_ndarray_put tbl q dst ind val ax mode deps).1 ≠ [] →
      mode = 0 ∨ mode = 1) := by
  refine ⟨?_, ?_, ?_, ?_⟩
  · intro tbl q src rep tl dst ax mode deps hp hax hm0 hm1
    unfold usm_ndarray_take
    rw [take_validate_cons hp, if_neg hax, if_pos ⟨hm0, hm1⟩]
  · intro tbl q dst rep tl val ax mode deps hp hax hm0 hm1
    unfold usm_ndarray_put
    rw [put_validate_cons hp, if_neg hax, if_pos ⟨hm0, hm1⟩]
  · intro tbl q src ind dst ax mode deps hne
    cases ind with
    | nil => exact absurd rfl hne
    | cons rep tl =>
      unfold usm_ndarray_take at hne
      cases hv : take_validate q src (rep :: tl) dst ax mode with
      | error e => rw [hv] at hne; exact absurd rfl hne
      | ok v =>
        cases v with
        | earlyReturn => rw [hv] at hne; exact absurd rfl hne
        | run s t k ish osh =>
          exact ((take_validate_ok_inv hv).2 s t k ish osh rfl).1
  · intro tbl q dst ind val ax mode deps hne
    cases ind with
    | nil => exact absurd rfl hne
    | cons rep tl =>
      unfold usm_ndarray_put at hne
      cases hv : put_validate q dst (rep :: tl) val ax mode with
      | error e => rw [hv] at hne; exact absurd rfl hne
      | ok v =>
        cases v with
        | earlyReturn => rw [hv] at hne; exact absurd rfl hne
        | run s t k ish osh =>
          exact ((put_validate_ok_inv hv).2 s t k ish osh rfl).1

/-- Witness for C10 at a concrete call with mode 7: the mode error is raised
even though the destination is not writable and the types disagree, showing it
precedes the buffer checks. -/
theorem take_put_invalid_mode_witness :
    usm_ndarray_take tblAll 0 (mkArr [2] 0 0 2) [mkArr [2] 1 2 2]
      { mkArr [2,2] 5 1 4 with writable := false } 0 7 [] =
      ([], .error .invalidMode) :=
  take_put_invalid_mode.1 tblAll 0 (mkArr [2] 0 0 2) (mkArr [2] 1 2 2) []
    { mkArr [2,2] 5 1 4 with writable := false } 0 7 []
    (by decide) (by decide) (by decide) (by decide)

/-! ## Claim C3 -/

/-- **C3**: a take/put call in which the orthogonal (non-indexed) element
count is zero or the index-array element count is zero and which returns
(rather than raising one of the preceding validation errors) returns the pair
of two default-constructed, already-complete events and submits no device work
(its effect trace is empty). -/
theorem take_put_zero_size_noop :
    (∀ tbl q src rep (tl : List USMArray) dst ax mode deps tr p,
      usm_ndarray_take tbl q src (rep :: tl) dst ax mode deps = (tr, .ok p) →
      orthog_count src.shape ax.toNat (tl.length + 1) = 0 ∨ rep.shape.prod = 0 →
      tr = [] ∧ p = (.defaultEv, .defaultEv)) ∧
    (∀ tbl q dst rep (tl : List USMArray) val ax mode deps tr p,
      usm_ndarray_put tbl q dst (rep :: tl) val ax mode deps = (tr, .ok p) →
      orthog_count dst.shape ax.toNat (tl.length + 1) = 0 ∨ rep.shape.prod = 0 →
      tr = [] ∧ p = (.defaultEv, .defaultEv)) := by
  constructor
  · intro tbl q src rep tl dst ax mode deps tr p h hz
    unfold usm_ndarray_take at h
    cases hv : take_validate q src (rep :: tl) dst ax mode with
    | error e =>
      rw [hv] at h
      replace h : (([] : List Effect), (Except.error e : Except Err (Event × Event)))
          = (tr, .ok p) := h
      exact Except.noConfusion (congrArg Prod.snd h)
    | ok v =>
      rw [hv] at h
      cases v with
      | earlyReturn =>
        replace h : (([] : List Effect),
            (Except.ok ((Event.defaultEv, Event.defaultEv)) :
              Except Err (Event × Event))) = (tr, .ok p) := h
        have h1 : ([] : List Effect) = tr := congrArg Prod.fst h
        have h2 : (Event.defaultEv, Event.defaultEv) = p :=
          Except.ok.inj (congrArg Prod.snd h)
        exact ⟨h1.symm, h2.symm⟩
      | run s t k ish osh =>
        obtain ⟨-, -, ho, hi, -⟩ := (take_validate_ok_inv hv).2 s t k ish osh rfl
        rcases hz with hz | hz
        · exact absurd hz ho
        · exact absurd hz hi
  · intro tbl q dst rep tl val ax mode deps tr p h hz
    unfold usm_ndarray_put at h
    cases hv : put_validate q dst (rep :: tl) val ax mode with
    | error e =>
      rw [hv] at h
      replace h : (([] : List Effect), (Except.error e : Except Err (Event × Event)))
          = (tr, .ok p) := h
      exact Except.noConfusion (congrArg Prod.snd h)
    | ok v =>
      rw [hv] at h
      cases v with
      | earlyReturn =>
        replace h : (([] : List Effect),
            (Except.ok ((Event.defaultEv, Event.defaultEv)) :
              Except Err (Event × Event))) = (tr, .ok p) := h
        have h1 : ([] : List Effect) = tr := congrArg Prod.fst h
        have h2 : (Event.defaultEv, Event.defaultEv) = p :=
          Except.ok.inj (congrArg Prod.snd h)
        exact ⟨h1.symm, h2.symm⟩
      | run s t k ish osh =>
        obtain ⟨-, -, ho, hi, -⟩ := (put_validate_ok_inv hv).2 s t k ish osh rfl
        rcases hz with hz | hz
        · exact absurd hz ho
        · exact absurd hz hi

/-- Witness for C3 at a concrete call with a zero orthogonal axis: source
shape (0, 2), one index array of shape (3), destination shape (0, 3); the call
returns the two default events and an empty trace. -/
theorem take_put_zero_size_noop_witness :
    usm_ndarray_take tblAll 0 (mkArr [0, 2] 0 0 0) [mkArr [3] 1 2 3]
        (mkArr [0, 3] 0 1 0) 1 0 [] =
      ([], .ok (.defaultEv, .defaultEv)) ∧
    orthog_count (mkArr [0, 2] 0 0 0).shape 1 1 = 0 := by
  have heq : usm_ndarray_take tblAll 0 (mkArr [0, 2] 0 0 0) [mkArr [3] 1 2 3]
      (mkArr [0, 3] 0 1 0) 1 0 [] = ([], .ok (.defaultEv, .defaultEv)) := rfl
  refine ⟨?_, by decide⟩
  obtain ⟨h1, h2⟩ := take_put_zero_size_noop.1 tblAll 0 (mkArr [0, 2] 0 0 0)
    (mkArr [3] 1 2 3) [] (mkArr [0, 3] 0 1 0) 1 0 [] [] (.defaultEv, .defaultEv)
    heq (Or.inl (by decide))
  rw [h1] at heq
  exact heq

/-! ## Claim C4 -/

/-- **C4**: under the checks that precede the rank check (successful parse,
nonempty index list, nonnegative axis, valid mode, writable destination, axis
range), `usm_ndarray_take` raises the dimension error with no device work
exactly when the destination rank differs from `src_nd - k + ind_nd` (or, for
a 0-d source, from `ind_nd`) — `take_rank_ok` is that relation — and the
dimension error is never raised when the relation holds; `usm_ndarray_put`
enforces the same relation with `dst` in the source role and `val` in the
destination role. -/
theorem take_put_rank_relation :
    (∀ (tbl : Nat → Nat → Nat → Bool) q src rep (tl : List USMArray) dst ax mode
        deps,
      parse_py_ind q (rep :: tl) = .ok () → ¬ (ax < 0) →
      ¬ (mode ≠ 0 ∧ mode ≠ 1) → dst.writable = true →
      ¬ (ax.toNat + (tl.length + 1) > max src.nd 1) →
      (¬ take_rank_ok src dst rep (tl.length + 1) →
        usm_ndarray_take tbl q src (rep :: tl) dst ax mode deps =
          ([], .error .destRankMismatch)) ∧
      ((usm_ndarray_take tbl q src (rep :: tl) dst ax mode deps).2 =
          .error .destRankMismatch →
        ¬ take_rank_ok src dst rep (tl.length + 1))) ∧
    (∀ (tbl : Nat → Nat → Nat → Bool) q dst rep (tl : List USMArray) val ax mode
        deps,
      parse_py_ind q (rep :: tl) = .ok () → ¬ (ax < 0) →
      ¬ (mode ≠ 0 ∧ mode ≠ 1) → dst.writable = true →
      ¬ (ax.toNat + (tl.length + 1) > max dst.nd 1) →
      (¬ take_rank_ok dst val rep (tl.length + 1) →
        usm_ndarray_put tbl q dst (rep :: tl) val ax mode deps =
          ([], .error .destRankMismatch)) ∧
      ((usm_ndarray_put tbl q dst (rep :: tl) val ax mode deps).2 =
          .error .destRankMismatch →
        ¬ take_rank_ok dst val rep (tl.length + 1))) := by
  constructor
  · intro tbl q src rep tl dst ax mode deps hp hax hm hw hr
    have hw' : ¬ (dst.writable = false) := by simp [hw]
    constructor
    · intro hbad
      unfold usm_ndarray_take
      rw [take_validate_cons hp, if_neg hax, if_neg hm, if_neg hw', if_neg hr,
        if_pos hbad]
    · intro h2
      cases hv : take_validate q src (rep :: tl) dst ax mode with
      | error e =>
        have : e = .destRankMismatch := by
          unfold usm_ndarray_take at h2
          rw [hv] at h2
          exact Except.error.inj h2
        subst this
        exact take_validate_rank_err_inv hv
      | ok v =>
        exfalso
        unfold usm_ndarray_take at h2
        rw [hv] at h2
        cases v with
        | earlyReturn => exact Except.noConfusion h2
        | run s t k ish osh =>
          replace h2 : (submit_phase (tbl mode s t) k ish osh deps).2 =
              Except.error Err.destRankMismatch := h2
          cases htb : tbl mode s t with
          | true => rw [htb] at h2; exact Except.noConfusion h2
          | false =>
            rw [htb] at h2
            exact Err.noConfusion (Except.error.inj h2)
  · intro tbl q dst rep tl val ax mode deps hp hax hm hw hr
    have hw' : ¬ (dst.writable = false) := by simp [hw]
    constructor
    · intro hbad
      unfold usm_ndarray_put
      rw [put_validate_cons hp, if_neg hax, if_neg hm, if_neg hw', if_neg hr,
        if_pos hbad]
    · intro h2
      cases hv : put_validate q dst (rep :: tl) val ax mode with
      | error e =>
        have : e = .destRankMismatch := by
          unfold usm_ndarray_put at h2
          rw [hv] at h2
          exact Except.error.inj h2
        subst this
        exact put_validate_rank_err_inv hv
      | ok v =>
        exfalso
        unfold usm_ndarray_put at h2
        rw [hv] at h2
        cases v with
        | earlyReturn => exact Except.noConfusion h2
        | run s t k ish osh =>
          replace h2 : (submit_phase (tbl mode s t) k ish osh deps).2 =
              Except.error Err.destRankMismatch := h2
          cases htb : tbl mode s t with
          | true => rw [htb] at h2; exact Except.noConfusion h2
          | false =>
            rw [htb] at h2
            exact Err.noConfusion (Except.error.inj h2)

/-- Witness for C4 at a concrete call: source rank 1, one index array of rank
1, destination rank 2 — the dimension error is raised. -/
theorem take_put_rank_relation_witness :
    usm_ndarray_take tblAll 0 (mkArr [2] 0 0 2) [mkArr [2] 1 2 2]
      (mkArr [2, 2] 0 1 4) 0 0 [] = ([], .error .destRankMismatch) :=
  (take_put_rank_relation.1 tblAll 0 (mkArr [2] 0 0 2) (mkArr [2] 1 2 2) []
    (mkArr [2, 2] 0 1 4) 0 0 [] (by decide) (by decide) (by decide) (by decide)
    (by decide)).1 (by decide)

/-! ## Claim C7 -/

/-- **C7**: on every take/put call that returns successfully, every device
scratch allocation appearing in the trace is covered by an `async_smart_free`
scheduling whose dependency list contains the compute-completion event — so no
scratch buffer is released before the compute task completes — and the calling
thread performs no blocking wait anywhere in the call. -/
theorem take_put_scratch_freed_after_compute :
    (∀ tbl q src ind dst ax mode deps tr p,
      usm_ndarray_take tbl q src ind dst ax mode deps = (tr, .ok p) →
      (∀ tag n, Effect.allocDevice tag n ∈ tr →
        ∃ ds ts ev, Effect.asyncFree ds ts ev ∈ tr ∧ tag ∈ ts ∧
          Event.computeEv ∈ ds) ∧
      (∀ evs, Effect.waitEvents evs ∉ tr)) ∧
    (∀ tbl q dst ind val ax mode deps tr p,
      usm_ndarray_put tbl q dst ind val ax mode deps = (tr, .ok p) →
      (∀ tag n, Effect.allocDevice tag n ∈ tr →
        ∃ ds ts ev, Effect.asyncFree ds ts ev ∈ tr ∧ tag ∈ ts ∧
          Event.computeEv ∈ ds) ∧
      (∀ evs, Effect.waitEvents evs ∉ tr)) := by
  constructor
  · intro tbl q src ind dst ax mode deps tr p h
    cases ind with
    | nil =>
      replace h : (([] : List Effect),
          (Except.error Err.emptyIndexList : Except Err (Event × Event))) =
          (tr, .ok p) := h
      exact Except.noConfusion (congrArg Prod.snd h)
    | cons rep tl =>
      unfold usm_ndarray_take at h
      cases hv : take_validate q src (rep :: tl) dst ax mode with
      | error e =>
        rw [hv] at h
        replace h : (([] : List Effect),
            (Except.error e : Except Err (Event × Event))) = (tr, .ok p) := h
        exact Except.noConfusion (congrArg Prod.snd h)
      | ok v =>
        rw [hv] at h
        cases v with
        | earlyReturn =>
          replace h : (([] : List Effect),
              (Except.ok ((Event.defaultEv, Event.defaultEv)) :
                Except Err (Event × Event))) = (tr, .ok p) := h
          obtain rfl : ([] : List Effect) = tr := congrArg Prod.fst h
          exact ⟨fun tag n hmem => absurd hmem (by simp),
            fun evs => by simp⟩
        | run s t k ish osh =>
          replace h : submit_phase (tbl mode s t) k ish osh deps = (tr, .ok p) := h
          cases htb : tbl mode s t with
          | false =>
            rw [htb] at h
            exact Except.noConfusion (congrArg Prod.snd h)
          | true =>
            rw [htb] at h
            replace h : (scratch_allocs k ish osh ++ populate_kernel_params_effects ++
                [Effect.submitKernel (pack_copy_events ++ deps) Event.computeEv,
                 Effect.asyncFree [Event.computeEv] scratch_tags Event.tempFreeEv,
                 Effect.keepAlive [Event.shCleanupEv, Event.tempFreeEv]
                   Event.argKeepEv],
                (Except.ok ((Event.argKeepEv, Event.computeEv)) :
                  Except Err (Event × Event))) = (tr, .ok p) := h
            obtain rfl : _ = tr := congrArg Prod.fst h
            constructor
            · intro tag n hmem
              refine ⟨[Event.computeEv], scratch_tags, Event.tempFreeEv, ?_, ?_, ?_⟩
              · simp
              · cases tag <;> decide
              · simp
            · intro evs
              simp [scratch_allocs, populate_kernel_params_effects]
  · intro tbl q dst ind val ax mode deps tr p h
    cases ind with
    | nil =>
      replace h : (([] : List Effect),
          (Except.error Err.emptyIndexList : Except Err (Event × Event))) =
          (tr, .ok p) := h
      exact Except.noConfusion (congrArg Prod.snd h)
    | cons rep tl =>
      unfold usm_ndarray_put at h
      cases hv : put_validate q dst (rep :: tl) val ax mode with
      | error e =>
        rw [hv] at h
        replace h : (([] : List Effect),
            (Except.error e : Except Err (Event × Event))) = (tr, .ok p) := h
        exact Except.noConfusion (congrArg Prod.snd h)
      | ok v =>
        rw [hv] at h
        cases v with
        | earlyReturn =>
          replace h : (([] : List Effect),
              (Except.ok ((Event.defaultEv, Event.defaultEv)) :
                Except Err (Event × Event))) = (tr, .ok p) := h
          obtain rfl : ([] : List Effect) = tr := congrArg Prod.fst h
          exact ⟨fun tag n hmem => absurd hmem (by simp),
            fun evs => by simp⟩
        | run s t k ish osh =>
          replace h : submit_phase (tbl mode s t) k ish osh deps = (tr, .ok p) := h
          cases htb : tbl mode s t with
          | false =>
            rw [htb] at h
            exact Except.noConfusion (congrArg Prod.snd h)
          | true =>
            rw [htb] at h
            replace h : (scratch_allocs k ish osh ++ populate_kernel_params_effects ++
                [Effect.submitKernel (pack_copy_events ++ deps) Event.computeEv,
                 Effect.asyncFree [Event.computeEv] scratch_tags Event.tempFreeEv,
                 Effect.keepAlive [Event.shCleanupEv, Event.tempFreeEv]
                   Event.argKeepEv],
                (Except.ok ((Event.argKeepEv, Event.computeEv)) :
                  Except Err (Event × Event))) = (tr, .ok p) := h
            obtain rfl : _ = tr := congrArg Prod.fst h
            constructor
            · intro tag n hmem
              refine ⟨[Event.computeEv], scratch_tags, Event.tempFreeEv, ?_, ?_, ?_⟩
              · simp
              · cases tag <;> decide
              · simp
            · intro evs
              simp [scratch_allocs, populate_kernel_params_effects]

/-- Witness for C7 at a concrete successful take call. -/
theorem take_put_scratch_freed_after_compute_witness :
    Effect.waitEvents [Event.shCleanupEv] ∉
      (usm_ndarray_take tblAll 0 (mkArr [2] 0 0 2) [mkArr [2] 1 2 2]
        (mkArr [2] 0 1 2) 0 0 []).1 := by
  have heq : usm_ndarray_take tblAll 0 (mkArr [2] 0 0 2) [mkArr [2] 1 2 2]
      (mkArr [2] 0 1 2) 0 0 [] =
      ((usm_ndarray_take tblAll 0 (mkArr [2] 0 0 2) [mkArr [2] 1 2 2]
        (mkArr [2] 0 1 2) 0 0 []).1, .ok (.argKeepEv, .computeEv)) := by
    have h2 : (usm_ndarray_take tblAll 0 (mkArr [2] 0 0 2) [mkArr [2] 1 2 2]
        (mkArr [2] 0 1 2) 0 0 []).2 = .ok (.argKeepEv, .computeEv) := rfl
    rw [← h2]
  exact (take_put_scratch_freed_after_compute.1 _ _ _ _ _ _ _ _ _ _ heq).2
    [Event.shCleanupEv]

/-! ## Claim C8 -/

/-- **C8**: for the spec-modelled kernel remapping, with `clip` (mode 1) an
index at or beyond the axis length gathers the same element as the maximum
valid index; with `wrap` (mode 0) an index equal to the axis length gathers
the same element as index 0; and for both modes every index is remapped into
the valid range `[0, len)`, so out-of-range indices never fault. -/
theorem take_wrap_clip_semantics (xs : List Int) (i : Int)
    (hlen : 0 < xs.length) (hi : (xs.length : Int) ≤ i) :
    clip_index xs.length i = (xs.length : Int) - 1 ∧
    take_1d xs [i] 1 = take_1d xs [(xs.length : Int) - 1] 1 ∧
    wrap_index xs.length (xs.length : Int) = 0 ∧
    take_1d xs [(xs.length : Int)] 0 = take_1d xs [0] 0 ∧
    (∀ (mode : Nat) (j : Int), 0 ≤ project_index mode xs.length j ∧
      project_index mode xs.length j < (xs.length : Int)) := by
  have hlen' : (0 : Int) < (xs.length : Int) := by exact_mod_cast hlen
  have hclip : clip_index xs.length i = (xs.length : Int) - 1 := by
    unfold clip_index
    rw [min_eq_right (by omega), max_eq_right (by omega)]
  have hclipmax : clip_index xs.length ((xs.length : Int) - 1) =
      (xs.length : Int) - 1 := by
    unfold clip_index
    rw [min_self, max_eq_right (by omega)]
  have hwrap : wrap_index xs.length (xs.length : Int) = 0 := by
    unfold wrap_index; exact Int.emod_self
  have hwrap0 : wrap_index xs.length 0 = 0 := by
    unfold wrap_index; exact Int.zero_emod _
  refine ⟨hclip, ?_, hwrap, ?_, ?_⟩
  · simp [take_1d, project_index, hclip, hclipmax]
  · simp [take_1d, project_index, hwrap, hwrap0]
  · intro mode j
    unfold project_index
    by_cases hm : mode = 0
    · rw [if_pos hm]
      unfold wrap_index
      exact ⟨Int.emod_nonneg j (by omega), Int.emod_lt_of_pos j hlen'⟩
    · rw [if_neg hm]
      unfold clip_index
      constructor
      · exact le_max_left 0 _
      · rw [max_lt_iff]
        exact ⟨hlen', lt_of_le_of_lt (min_le_right j _) (by omega)⟩

/-- Witness for C8 at concrete inputs: axis length 2, clip of index 9 gathers
element 1, wrap of index 2 gathers element 0. -/
theorem take_wrap_clip_semantics_witness :
    clip_index 2 9 = 1 ∧ take_1d [5, 7] [9] 1 = take_1d [5, 7] [1] 1 ∧
    wrap_index 2 2 = 0 ∧ take_1d [5, 7] [2] 0 = take_1d [5, 7] [0] 0 := by
  obtain ⟨h1, h2, h3, h4, -⟩ :=
    take_wrap_clip_semantics [5, 7] 9 (by decide) (by decide)
  exact ⟨h1, h2, h3, h4⟩

/-! ## Claim C2 -/

/-- **C2** counterexample: a take call whose operands disagree in both element
type and rank raises the rank error, not the type error — so the
type-agreement check (claimed to run second, before rank/shape agreement) does
not precede the rank/shape check. -/
theorem take_check_order_counterexample :
    usm_ndarray_take tblAll 0 (mkArr [2] 1 0 2) [mkArr [2] 1 2 2]
        (mkArr [2, 2] 2 1 4) 0 0 [] = ([], .error .destRankMismatch) ∧
    (mkArr [2] 1 0 2).typenum ≠ (mkArr [2, 2] 2 1 4).typenum ∧
    (mkArr [2, 2] 2 1 4).writable = true ∧
    Err.destRankMismatch ≠ Err.typeMismatch := by
  exact ⟨rfl, by decide, by decide, by decide⟩

/-- **C2** (amended): after the index-list parsing, empty-list, axis-sign and
mode checks, the pre-flight checks are applied in the order: (1) writability;
(2) rank/shape agreement (axis range, the rank relation, orthogonal-shape
agreement, with a zero-orthogonal early return after it); (3)
execution/allocation-context compatibility; (4) memory-overlap detection; then
for `take` (5) type agreement, (6) index-shape-vs-destination agreement, (7)
capacity sufficiency, while for `put` the capacity check precedes type
agreement: (5') capacity sufficiency, (6') type agreement, (7')
index-shape-vs-value agreement.  Each check raises its error with no device
work before any later check runs. -/
theorem take_put_check_order :
    (∀ (tbl : Nat → Nat → Nat → Bool) q src rep (tl : List USMArray) dst ax mode
        deps,
      parse_py_ind q (rep :: tl) = .ok () → ¬ (ax < 0) →
      ¬ (mode ≠ 0 ∧ mode ≠ 1) →
      ((dst.writable = false →
        usm_ndarray_take tbl q src (rep :: tl) dst ax mode deps =
          ([], .error .notWritable)) ∧
      (dst.writable = true →
        ax.toNat + (tl.length + 1) > max src.nd 1 →
        usm_ndarray_take tbl q src (rep :: tl) dst ax mode deps =
          ([], .error .axesOutOfRange)) ∧
      (dst.writable = true →
        ¬ (ax.toNat + (tl.length + 1) > max src.nd 1) →
        ¬ take_rank_ok src dst rep (tl.length + 1) →
        usm_ndarray_take tbl q src (rep :: tl) dst ax mode deps =
          ([], .error .destRankMismatch)) ∧
      (dst.writable = true →
        ¬ (ax.toNat + (tl.length + 1) > max src.nd 1) →
        take_rank_ok src dst rep (tl.length + 1) →
        orthog_shapes_equal src.shape dst.shape ax.toNat (tl.length + 1) rep.nd
          = false →
        usm_ndarray_take tbl q src (rep :: tl) dst ax mode deps =
          ([], .error .orthogShapeMismatch)) ∧
      (dst.writable = true →
        ¬ (ax.toNat + (tl.length + 1) > max src.nd 1) →
        take_rank_ok src dst rep (tl.length + 1) →
        orthog_shapes_equal src.shape dst.shape ax.toNat (tl.length + 1) rep.nd
          = true →
        orthog_count src.shape ax.toNat (tl.length + 1) ≠ 0 →
        queues_compatible2 q src dst = false →
        usm_ndarray_take tbl q src (rep :: tl) dst ax mode deps =
          ([], .error .queueIncompat)) ∧
      (dst.writable = true →
        ¬ (ax.toNat + (tl.length + 1) > max src.nd 1) →
        take_rank_ok src dst rep (tl.length + 1) →
        orthog_shapes_equal src.shape dst.shape ax.toNat (tl.length + 1) rep.nd
          = true →
        orthog_count src.shape ax.toNat (tl.length + 1) ≠ 0 →
        queues_compatible2 q src dst = true →
        memoryOverlap src dst →
        usm_ndarray_take tbl q src (rep :: tl) dst ax mode deps =
          ([], .error .overlapError)) ∧
      (dst.writable = true →
        ¬ (ax.toNat + (tl.length + 1) > max src.nd 1) →
        take_rank_ok src dst rep (tl.length + 1) →
        orthog_shapes_equal src.shape dst.shape ax.toNat (tl.length + 1) rep.nd
          = true →
        orthog_count src.shape ax.toNat (tl.length + 1) ≠ 0 →
        queues_compatible2 q src dst = true →
        ¬ memoryOverlap src dst →
        src.typenum < num_types → dst.typenum < num_types →
        src.typenum ≠ dst.typenum →
        usm_ndarray_take tbl q src (rep :: tl) dst ax mode deps =
          ([], .error .typeMismatch)) ∧
      (dst.writable = true →
        ¬ (ax.toNat + (tl.length + 1) > max src.nd 1) →
        take_rank_ok src dst rep (tl.length + 1) →
        orthog_shapes_equal src.shape dst.shape ax.toNat (tl.length + 1) rep.nd
          = true →
        orthog_count src.shape ax.toNat (tl.length + 1) ≠ 0 →
        queues_compatible2 q src dst = true →
        ¬ memoryOverlap src dst →
        src.typenum < num_types → dst.typenum < num_types →
        src.typenum = dst.typenum → rep.typenum < num_types →
        ind_axes_match rep.shape dst.shape ax.toNat = false →
        usm_ndarray_take tbl q src (rep :: tl) dst ax mode deps =
          ([], .error .indShapeAxisMismatch)) ∧
      (dst.writable = true →
        ¬ (ax.toNat + (tl.length + 1) > max src.nd 1) →
        take_rank_ok src dst rep (tl.length + 1) →
        orthog_shapes_equal src.shape dst.shape ax.toNat (tl.length + 1) rep.nd
          = true →
        orthog_count src.shape ax.toNat (tl.length + 1) ≠ 0 →
        queues_compatible2 q src dst = true →
        ¬ memoryOverlap src dst →
        src.typenum < num_types → dst.typenum < num_types →
        src.typenum = dst.typenum → rep.typenum < num_types →
        ind_axes_match rep.shape dst.shape ax.toNat = true →
        dst.addressable <
          orthog_count src.shape ax.toNat (tl.length + 1) * rep.shape.prod →
        usm_ndarray_take tbl q src (rep :: tl) dst ax mode deps =
          ([], .error .notAmple)))) ∧
    (∀ (tbl : Nat → Nat → Nat → Bool) q dst rep (tl : List USMArray) val ax mode
        deps,
      parse_py_ind q (rep :: tl) = .ok () → ¬ (ax < 0) →
      ¬ (mode ≠ 0 ∧ mode ≠ 1) →
      ((dst.writable = false →
        usm_ndarray_put tbl q dst (rep :: tl) val ax mode deps =
          ([], .error .notWritable)) ∧
      (dst.writable = true →
        ax.toNat + (tl.length + 1) > max dst.nd 1 →
        usm_ndarray_put tbl q dst (rep :: tl) val ax mode deps =
          ([], .error .axesOutOfRange)) ∧
      (dst.writable = true →
        ¬ (ax.toNat + (tl.length + 1) > max dst.nd 1) →
        ¬ take_rank_ok dst val rep (tl.length + 1) →
        usm_ndarray_put tbl q dst (rep :: tl) val ax mode deps =
          ([], .error .destRankMismatch)) ∧
      (dst.writable = true →
        ¬ (ax.toNat + (tl.length + 1) > max dst.nd 1) →
        take_rank_ok dst val rep (tl.length + 1) →
        orthog_shapes_equal dst.shape val.shape ax.toNat (tl.length + 1) rep.nd
          = false →
        usm_ndarray_put tbl q dst (rep :: tl) val ax mode deps =
          ([], .error .orthogShapeMismatch)) ∧
      (dst.writable = true →
        ¬ (ax.toNat + (tl.length + 1) > max dst.nd 1) →
        take_rank_ok dst val rep (tl.length + 1) →
        orthog_shapes_equal dst.shape val.shape ax.toNat (tl.length + 1) rep.nd
          = true →
        orthog_count dst.shape ax.toNat (tl.length + 1) ≠ 0 →
        queues_compatible2 q dst val = false →
        usm_ndarray_put tbl q dst (rep :: tl) val ax mode deps =
          ([], .error .queueIncompat)) ∧
      (dst.writable = true →
        ¬ (ax.toNat + (tl.length + 1) > max dst.nd 1) →
        take_rank_ok dst val rep (tl.length + 1) →
        orthog_shapes_equal dst.shape val.shape ax.toNat (tl.length + 1) rep.nd
          = true →
        orthog_count dst.shape ax.toNat (tl.length + 1) ≠ 0 →
        queues_compatible2 q dst val = true →
        memoryOverlap val dst →
        usm_ndarray_put tbl q dst (rep :: tl) val ax mode deps =
          ([], .error .overlapError)) ∧
      (dst.writable = true →
        ¬ (ax.toNat + (tl.length + 1) > max dst.nd 1) →
        take_rank_ok dst val rep (tl.length + 1) →
        orthog_shapes_equal dst.shape val.shape ax.toNat (tl.length + 1) rep.nd
          = true →
        orthog_count dst.shape ax.toNat (tl.length + 1) ≠ 0 →
        queues_compatible2 q dst val = true →
        ¬ memoryOverlap val dst →
        dst.addressable < dst.size →
        usm_ndarray_put tbl q dst (rep :: tl) val ax mode deps =
          ([], .error .notAmple)) ∧
      (dst.writable = true →
        ¬ (ax.toNat + (tl.length + 1) > max dst.nd 1) →
        take_rank_ok dst val rep (tl.length + 1) →
        orthog_shapes_equal dst.shape val.shape ax.toNat (tl.length + 1) rep.nd
          = true →
        orthog_count dst.shape ax.toNat (tl.length + 1) ≠ 0 →
        queues_compatible2 q dst val = true →
        ¬ memoryOverlap val dst →
        ¬ (dst.addressable < dst.size) →
        dst.typenum < num_types → val.typenum < num_types →
        dst.typenum ≠ val.typenum →
        usm_ndarray_put tbl q dst (rep :: tl) val ax mode deps =
          ([], .error .typeMismatch)) ∧
      (dst.writable = true →
        ¬ (ax.toNat + (tl.length + 1) > max dst.nd 1) →
        take_rank_ok dst val rep (tl.length + 1) →
        orthog_shapes_equal dst.shape val.shape ax.toNat (tl.length + 1) rep.nd
          = true →
        orthog_count dst.shape ax.toNat (tl.length + 1) ≠ 0 →
        queues_compatible2 q dst val = true →
        ¬ memoryOverlap val dst →
        ¬ (dst.addressable < dst.size) →
        dst.typenum < num_types → val.typenum < num_types →
        dst.typenum = val.typenum → rep.typenum < num_types →
        ind_axes_match rep.shape val.shape ax.toNat = false →
        usm_ndarray_put tbl q dst (rep :: tl) val ax mode deps =
          ([], .error .indShapeAxisMismatch)))) := by
  constructor
  · intro tbl q src rep tl dst ax mode deps hp hax hm
    refine ⟨?_, ?_, ?_, ?_, ?_, ?_, ?_, ?_, ?_⟩
    · intro hw
      unfold usm_ndarray_take
      rw [take_validate_cons hp, if_neg hax, if_neg hm, if_pos hw]
    · intro hw har
      unfold usm_ndarray_take
      rw [take_validate_cons hp, if_neg hax, if_neg hm,
        if_neg (by simp [hw]), if_pos har]
    · intro hw har hrk
      unfold usm_ndarray_take
      rw [take_validate_cons hp, if_neg hax, if_neg hm,
        if_neg (by simp [hw]), if_neg har, if_pos hrk]
    · intro hw har hrk hoe
      unfold usm_ndarray_take
      rw [take_validate_cons hp, if_neg hax, if_neg hm,
        if_neg (by simp [hw]), if_neg har, if_neg (not_not_intro hrk),
        if_pos hoe]
    · intro hw har hrk hoe hoz hq
      unfold usm_ndarray_take
      rw [take_validate_cons hp, if_neg hax, if_neg hm,
        if_neg (by simp [hw]), if_neg har, if_neg (not_not_intro hrk),
        if_neg (by simp [hoe]), if_neg hoz, if_pos hq]
    · intro hw har hrk hoe hoz hq hov
      unfold usm_ndarray_take
      rw [take_validate_cons hp, if_neg hax, if_neg hm,
        if_neg (by simp [hw]), if_neg har, if_neg (not_not_intro hrk),
        if_neg (by simp [hoe]), if_neg hoz, if_neg (by simp [hq]),
        if_pos hov]
    · intro hw har hrk hoe hoz hq hov hst hdt hty
      unfold usm_ndarray_take
      rw [take_validate_cons hp, if_neg hax, if_neg hm,
        if_neg (by simp [hw]), if_neg har, if_neg (not_not_intro hrk),
        if_neg (by simp [hoe]), if_neg hoz, if_neg (by simp [hq]),
        if_neg hov, if_neg (by omega), if_neg (by omega), if_pos hty]
    · intro hw har hrk hoe hoz hq hov hst hdt hty hit hia
      unfold usm_ndarray_take
      rw [take_validate_cons hp, if_neg hax, if_neg hm,
        if_neg (by simp [hw]), if_neg har, if_neg (not_not_intro hrk),
        if_neg (by simp [hoe]), if_neg hoz, if_neg (by simp [hq]),
        if_neg hov, if_neg (by omega), if_neg (by omega),
        if_neg (not_not_intro hty), if_neg (by omega), if_pos hia]
    · intro hw har hrk hoe hoz hq hov hst hdt hty hit hia hcap
      unfold usm_ndarray_take
      rw [take_validate_cons hp, if_neg hax, if_neg hm,
        if_neg (by simp [hw]), if_neg har, if_neg (not_not_intro hrk),
        if_neg (by simp [hoe]), if_neg hoz, if_neg (by simp [hq]),
        if_neg hov, if_neg (by omega), if_neg (by omega),
        if_neg (not_not_intro hty), if_neg (by omega),
        if_neg (by simp [hia]), if_pos hcap]
  · intro tbl q dst rep tl val ax mode deps hp hax hm
    refine ⟨?_, ?_, ?_, ?_, ?_, ?_, ?_, ?_, ?_⟩
    · intro hw
      unfold usm_ndarray_put
      rw [put_validate_cons hp, if_neg hax, if_neg hm, if_pos hw]
    · intro hw har
      unfold usm_ndarray_put
      rw [put_validate_cons hp, if_neg hax, if_neg hm,
        if_neg (by simp [hw]), if_pos har]
    · intro hw har hrk
      unfold usm_ndarray_put
      rw [put_validate_cons hp, if_neg hax, if_neg hm,
        if_neg (by simp [hw]), if_neg har, if_pos hrk]
    · intro hw har hrk hoe
      unfold usm_ndarray_put
      rw [put_validate_cons hp, if_neg hax, if_neg hm,
        if_neg (by simp [hw]), if_neg har, if_neg (not_not_intro hrk),
        if_pos hoe]
    · intro hw har hrk hoe hoz hq
      unfold usm_ndarray_put
      rw [put_validate_cons hp, if_neg hax, if_neg hm,
        if_neg (by simp [hw]), if_neg har, if_neg (not_not_intro hrk),
        if_neg (by simp [hoe]), if_neg hoz, if_pos hq]
    · intro hw har hrk hoe hoz hq hov
      unfold usm_ndarray_put
      rw [put_validate_cons hp, if_neg hax, if_neg hm,
        if_neg (by simp [hw]), if_neg har, if_neg (not_not_intro hrk),
        if_neg (by simp [hoe]), if_neg hoz, if_neg (by simp [hq]),
        if_pos hov]
    · intro hw har hrk hoe hoz hq hov hcap
      unfold usm_ndarray_put
      rw [put_validate_cons hp, if_neg hax, if_neg hm,
        if_neg (by simp [hw]), if_neg har, if_neg (not_not_intro hrk),
        if_neg (by simp [hoe]), if_neg hoz, if_neg (by simp [hq]),
        if_neg hov, if_pos hcap]
    · intro hw har hrk hoe hoz hq hov hcap hst hdt hty
      unfold usm_ndarray_put
      rw [put_validate_cons hp, if_neg hax, if_neg hm,
        if_neg (by simp [hw]), if_neg har, if_neg (not_not_intro hrk),
        if_neg (by simp [hoe]), if_neg hoz, if_neg (by simp [hq]),
        if_neg hov, if_neg hcap, if_neg (by omega), if_neg (by omega),
        if_pos hty]
    · intro hw har hrk hoe hoz hq hov hcap hst hdt hty hit hia
      unfold usm_ndarray_put
      rw [put_validate_cons hp, if_neg hax, if_neg hm,
        if_neg (by simp [hw]), if_neg har, if_neg (not_not_intro hrk),
        if_neg (by simp [hoe]), if_neg hoz, if_neg (by simp [hq]),
        if_neg hov, if_neg hcap, if_neg (by omega), if_neg (by omega),
        if_neg (not_not_intro hty), if_neg (by omega), if_pos hia]

/-- Witness for the amended C2 at a concrete call: with every earlier check
passing and mismatched element types (typenums 1 and 2), take raises the type
error — after the overlap stage, not before the rank stage. -/
theorem take_put_check_order_witness :
    usm_ndarray_take tblAll 0 (mkArr [2] 1 0 2) [mkArr [2] 3 2 2]
      (mkArr [2] 2 1 2) 0 0 [] = ([], .error .typeMismatch) :=
  ((take_put_check_order.1 tblAll 0 (mkArr [2] 1 0 2) (mkArr [2] 3 2 2) []
    (mkArr [2] 2 1 2) 0 0 [] (by decide) (by decide)
    (by decide)).2.2.2.2.2.2.1) (by decide) (by decide) (by decide) (by decide)
    (by decide) (by decide) (by decide) (by decide) (by decide) (by decide)

/-! ## Claim C5 -/

/-- If the orthogonal element count is zero, the whole shape multiplies to
zero: the vanishing factor is one of the array's extents. -/
theorem orthog_count_zero_prod {sh : List Nat} {a k : Nat}
    (h : orthog_count sh a k = 0) : sh.prod = 0 := by
  unfold orthog_count at h
  rw [List.prod_eq_zero_iff, List.mem_map] at h
  obtain ⟨i, hi, hzero⟩ := h
  rw [List.mem_range] at hi
  have hlt : (if i < a then i else i + k) < sh.length := by split <;> omega
  rw [List.getD_eq_getElem sh 0 hlt] at hzero
  rw [List.prod_eq_zero_iff, ← hzero]
  exact List.getElem_mem hlt

/-- **C5** counterexample: a put call that performs 3 element stores into a
destination whose addressable element count is 2 proceeds to submission with
no insufficient-capacity error — put's capacity check compares the addressable
count against the destination's own element count (2 ≥ 2), not against the
number of elements the operation will write. -/
theorem put_capacity_counterexample :
    (usm_ndarray_put tblAll 0 (mkArr [2] 3 1 2) [mkArr [3] 1 3 3]
        (mkArr [3] 3 2 3) 0 0 []).2 = .ok (.argKeepEv, .computeEv) ∧
    (mkArr [2] 3 1 2).addressable <
      put_write_count (mkArr [2] 3 1 2) 0 1 (mkArr [3] 1 3 3) := by
  exact ⟨rfl, by decide⟩

/-- **C5** (amended): `usm_ndarray_take` checks that the destination's
addressable element count is at least the number of elements it will write
(`orthog_nelems * ind_nelems`), raising the capacity error with no device work
otherwise; `usm_ndarray_put` instead checks the addressable count against the
destination's *own* element count (`dst_nelems`), so every successful call
satisfies the respective inequality — but for put the write count
`orthog_nelems * ind_nelems` may exceed it, as the counterexample shows. -/
theorem take_put_capacity :
    (∀ tbl q src rep (tl : List USMArray) dst ax mode deps tr p,
      usm_ndarray_take tbl q src (rep :: tl) dst ax mode deps = (tr, .ok p) →
      orthog_count src.shape ax.toNat (tl.length + 1) * rep.shape.prod ≤
        dst.addressable) ∧
    (∀ tbl q dst rep (tl : List USMArray) val ax mode deps tr p,
      usm_ndarray_put tbl q dst (rep :: tl) val ax mode deps = (tr, .ok p) →
      dst.size ≤ dst.addressable) ∧
    (∀ (tbl : Nat → Nat → Nat → Bool) q src rep (tl : List USMArray) dst ax mode
        deps,
      parse_py_ind q (rep :: tl) = .ok () → ¬ (ax < 0) →
      ¬ (mode ≠ 0 ∧ mode ≠ 1) → dst.writable = true →
      ¬ (ax.toNat + (tl.length + 1) > max src.nd 1) →
      take_rank_ok src dst rep (tl.length + 1) →
      orthog_shapes_equal src.shape dst.shape ax.toNat (tl.length + 1) rep.nd
        = true →
      orthog_count src.shape ax.toNat (tl.length + 1) ≠ 0 →
      queues_compatible2 q src dst = true →
      ¬ memoryOverlap src dst →
      src.typenum < num_types → dst.typenum < num_types →
      src.typenum = dst.typenum → rep.typenum < num_types →
      ind_axes_match rep.shape dst.shape ax.toNat = true →
      dst.addressable <
        orthog_count src.shape ax.toNat (tl.length + 1) * rep.shape.prod →
      usm_ndarray_take tbl q src (rep :: tl) dst ax mode deps =
        ([], .error .notAmple)) ∧
    (∀ (tbl : Nat → Nat → Nat → Bool) q dst rep (tl : List USMArray) val ax mode
        deps,
      parse_py_ind q (rep :: tl) = .ok () → ¬ (ax < 0) →
      ¬ (mode ≠ 0 ∧ mode ≠ 1) → dst.writable = true →
      ¬ (ax.toNat + (tl.length + 1) > max dst.nd 1) →
      take_rank_ok dst val rep (tl.length + 1) →
      orthog_shapes_equal dst.shape val.shape ax.toNat (tl.length + 1) rep.nd
        = true →
      orthog_count dst.shape ax.toNat (tl.length + 1) ≠ 0 →
      queues_compatible2 q dst val = true →
      ¬ memoryOverlap val dst →
      dst.addressable < dst.size →
      usm_ndarray_put tbl q dst (rep :: tl) val ax mode deps =
        ([], .error .notAmple)) := by
  refine ⟨?_, ?_, ?_, ?_⟩
  · intro tbl q src rep tl dst ax mode deps tr p h
    unfold usm_ndarray_take at h
    cases hv : take_validate q src (rep :: tl) dst ax mode with
    | error e =>
      rw [hv] at h
      replace h : (([] : List Effect), (Except.error e : Except Err (Event × Event)))
          = (tr, .ok p) := h
      exact Except.noConfusion (congrArg Prod.snd h)
    | ok v =>
      cases v with
      | earlyReturn =>
        rcases (take_validate_ok_inv hv).1 rfl with hz | hz <;> simp [hz]
      | run s t k ish osh =>
        exact ((take_validate_ok_inv hv).2 s t k ish osh rfl).2.2.2.2
  · intro tbl q dst rep tl val ax mode deps tr p h
    unfold usm_ndarray_put at h
    cases hv : put_validate q dst (rep :: tl) val ax mode with
    | error e =>
      rw [hv] at h
      replace h : (([] : List Effect), (Except.error e : Except Err (Event × Event)))
          = (tr, .ok p) := h
      exact Except.noConfusion (congrArg Prod.snd h)
    | ok v =>
      cases v with
      | earlyReturn =>
        rcases (put_validate_ok_inv hv).1 rfl with hz | ⟨-, hz⟩
        · have : dst.size = 0 := orthog_count_zero_prod hz
          rw [this]
          exact Nat.zero_le _
        · exact hz
      | run s t k ish osh =>
        exact ((put_validate_ok_inv hv).2 s t k ish osh rfl).2.2.2.2
  · intro tbl q src rep tl dst ax mode deps hp hax hm hw har hrk hoe hoz hq hov
      hst hdt hty hit hia hcap
    unfold usm_ndarray_take
    rw [take_validate_cons hp, if_neg hax, if_neg hm,
      if_neg (by simp [hw]), if_neg har, if_neg (not_not_intro hrk),
      if_neg (by simp [hoe]), if_neg hoz, if_neg (by simp [hq]),
      if_neg hov, if_neg (by omega), if_neg (by omega),
      if_neg (not_not_intro hty), if_neg (by omega),
      if_neg (by simp [hia]), if_pos hcap]
  · intro tbl q dst rep tl val ax mode deps hp hax hm hw har hrk hoe hoz hq hov
      hcap
    unfold usm_ndarray_put
    rw [put_validate_cons hp, if_neg hax, if_neg hm,
      if_neg (by simp [hw]), if_neg har, if_neg (not_not_intro hrk),
      if_neg (by simp [hoe]), if_neg hoz, if_neg (by simp [hq]),
      if_neg hov, if_pos hcap]

/-- Witness for the amended C5: a successful concrete take call satisfies the
write-count capacity bound, and a concrete take call with a too-small
destination raises the capacity error. -/
theorem take_put_capacity_witness :
    orthog_count (mkArr [2] 0 0 2).shape 0 1 * (mkArr [2] 1 2 2).shape.prod ≤
      (mkArr [2] 0 1 2).addressable ∧
    usm_ndarray_take tblAll 0 (mkArr [2] 0 0 2) [mkArr [2] 1 2 2]
      (mkArr [2] 0 1 1) 0 0 [] = ([], .error .notAmple) := by
  constructor
  · have heq : usm_ndarray_take tblAll 0 (mkArr [2] 0 0 2) [mkArr [2] 1 2 2]
        (mkArr [2] 0 1 2) 0 0 [] =
        ((usm_ndarray_take tblAll 0 (mkArr [2] 0 0 2) [mkArr [2] 1 2 2]
          (mkArr [2] 0 1 2) 0 0 []).1, .ok (.argKeepEv, .computeEv)) := by
      have h2 : (usm_ndarray_take tblAll 0 (mkArr [2] 0 0 2) [mkArr [2] 1 2 2]
          (mkArr [2] 0 1 2) 0 0 []).2 = .ok (.argKeepEv, .computeEv) := rfl
      rw [← h2]
    exact take_put_capacity.1 tblAll 0 (mkArr [2] 0 0 2) (mkArr [2] 1 2 2) []
      (mkArr [2] 0 1 2) 0 0 [] _ _ heq
  · exact take_put_capacity.2.2.1 tblAll 0 (mkArr [2] 0 0 2) (mkArr [2] 1 2 2)
      [] (mkArr [2] 0 1 1) 0 0 [] (by decide) (by decide) (by decide)
      (by decide) (by decide) (by decide) (by decide) (by decide) (by decide)
      (by decide) (by decide) (by decide) (by decide) (by decide) (by decide)
      (by decide)

/-! ## Claim C6 -/

/-- Under rank agreement, the loop's pointwise shape comparison with the
representative array is exactly shape-list equality. -/
theorem ind_shapes_eq_iff {rep a : USMArray} (hnd : a.nd = rep.nd) :
    ind_shapes_eq rep a = true ↔ a.shape = rep.shape := by
  unfold ind_shapes_eq
  rw [List.all_eq_true]
  constructor
  · intro h
    refine List.ext_getElem hnd ?_
    intro n h1 h2
    have hm := h n (List.mem_range.mpr h2)
    rw [beq_iff_eq] at hm
    rw [← List.getD_eq_getElem a.shape 0 h1, ← List.getD_eq_getElem rep.shape 0 h2]
    exact hm.symm
  · intro h n hn
    rw [beq_iff_eq, h]

/-- If every index array in the suffix passes the queue, rank, element-type and
overlap checks but some shape disagrees with the representative, the loop
(entered with counter ≥ 1) reports the shape mismatch. -/
theorem index_arrays_check_shape_err {q : Nat} {dst rep : USMArray} :
    ∀ (l : List USMArray) (i : Nat), 1 ≤ i →
      (∀ x ∈ l, queues_compatible q x = true) →
      (∀ x ∈ l, ¬ memoryOverlap dst x) →
      (∀ x ∈ l, x.nd = rep.nd) →
      (∀ x ∈ l, x.typenum = rep.typenum) →
      rep.typenum < num_types →
      (∃ x ∈ l, x.shape ≠ rep.shape) →
      index_arrays_check q dst rep rep.typenum i l = .error .indexShapeMismatch
  | [], _, _, _, _, _, _, _, hex => absurd hex (by simp)
  | a :: rest, i, hi, hq, hov, hnd, hty, hrt, hex => by
    unfold index_arrays_check
    rw [if_pos (hq a (List.mem_cons_self a rest))]
    have hstep : index_array_step rep a rep.typenum i =
        (if ind_shapes_eq rep a = false then .error .indexShapeMismatch
         else .ok ()) := by
      unfold index_array_step
      rw [if_neg (by omega),
        if_neg (by simp [hnd a (List.mem_cons_self a rest)]),
        if_neg (by rw [hty a (List.mem_cons_self a rest)]; omega),
        if_neg (by simp [hty a (List.mem_cons_self a rest)])]
    by_cases hsh : a.shape = rep.shape
    · have hse : ind_shapes_eq rep a = true :=
        (ind_shapes_eq_iff (hnd a (List.mem_cons_self a rest))).mpr hsh
      rw [hstep, if_neg (by simp [hse]), if_neg (hov a (List.mem_cons_self a rest))]
      refine index_arrays_check_shape_err rest (i + 1) (by omega)
        (fun x hx => hq x (List.mem_cons_of_mem a hx))
        (fun x hx => hov x (List.mem_cons_of_mem a hx))
        (fun x hx => hnd x (List.mem_cons_of_mem a hx))
        (fun x hx => hty x (List.mem_cons_of_mem a hx)) hrt ?_
      obtain ⟨x, hx, hxs⟩ := hex
      rcases List.mem_cons.mp hx with rfl | hx'
      · exact absurd hsh hxs
      · exact ⟨x, hx', hxs⟩
    · have hse : ind_shapes_eq rep a = false := by
        rcases Bool.eq_false_or_eq_true (ind_shapes_eq rep a) with h | h
        · exact absurd
            ((ind_shapes_eq_iff (hnd a (List.mem_cons_self a rest))).mp h) hsh
        · exact h
      rw [hstep, if_pos hse]

/-- If every index array in the suffix passes the queue, rank, shape and
overlap checks but some element type disagrees with the representative, the
loop (entered with counter ≥ 1) reports the type mismatch. -/
theorem index_arrays_check_type_err {q : Nat} {dst rep : USMArray} :
    ∀ (l : List USMArray) (i : Nat), 1 ≤ i →
      (∀ x ∈ l, queues_compatible q x = true) →
      (∀ x ∈ l, ¬ memoryOverlap dst x) →
      (∀ x ∈ l, x.nd = rep.nd) →
      (∀ x ∈ l, x.typenum < num_types) →
      (∀ x ∈ l, x.shape = rep.shape) →
      (∃ x ∈ l, x.typenum ≠ rep.typenum) →
      index_arrays_check q dst rep rep.typenum i l = .error .indexTypeMismatch
  | [], _, _, _, _, _, _, _, hex => absurd hex (by simp)
  | a :: rest, i, hi, hq, hov, hnd, hrg, hsh, hex => by
    unfold index_arrays_check
    rw [if_pos (hq a (List.mem_cons_self a rest))]
    by_cases hta : a.typenum = rep.typenum
    · have hstep : index_array_step rep a rep.typenum i = .ok () := by
        unfold index_array_step
        rw [if_neg (by omega),
          if_neg (by simp [hnd a (List.mem_cons_self a rest)]),
          if_neg (by have := hrg a (List.mem_cons_self a rest); omega),
          if_neg (by simp [hta]),
          if_neg (by
            simp [(ind_shapes_eq_iff (hnd a (List.mem_cons_self a rest))).mpr
              (hsh a (List.mem_cons_self a rest))])]
      rw [hstep, if_neg (hov a (List.mem_cons_self a rest))]
      refine index_arrays_check_type_err rest (i + 1) (by omega)
        (fun x hx => hq x (List.mem_cons_of_mem a hx))
        (fun x hx => hov x (List.mem_cons_of_mem a hx))
        (fun x hx => hnd x (List.mem_cons_of_mem a hx))
        (fun x hx => hrg x (List.mem_cons_of_mem a hx))
        (fun x hx => hsh x (List.mem_cons_of_mem a hx)) ?_
      obtain ⟨x, hx, hxt⟩ := hex
      rcases List.mem_cons.mp hx with rfl | hx'
      · exact absurd hta hxt
      · exact ⟨x, hx', hxt⟩
    · have hstep : index_array_step rep a rep.typenum i =
          .error .indexTypeMismatch := by
        unfold index_array_step
        rw [if_neg (by omega),
          if_neg (by simp [hnd a (List.mem_cons_self a rest)]),
          if_neg (by have := hrg a (List.mem_cons_self a rest); omega),
          if_pos hta]
      rw [hstep]

/-- **C6** counterexample: a take call with two index arrays of different
shapes (and equal ranks and types) in which the orthogonal element count is
zero returns the no-op pair without raising any shape error — the per-index
agreement checks are skipped entirely by the zero-orthogonal early return. -/
theorem take_index_agreement_counterexample :
    usm_ndarray_take tblAll 0 (mkArr [0, 2, 2] 0 0 0)
        [mkArr [3] 1 2 3, mkArr [4] 1 3 4] (mkArr [0, 3] 0 1 0) 1 0 [] =
      ([], .ok (.defaultEv, .defaultEv)) ∧
    (mkArr [3] 1 2 3).shape ≠ (mkArr [4] 1 3 4).shape ∧
    (mkArr [3] 1 2 3).nd = (mkArr [4] 1 3 4).nd ∧
    (mkArr [3] 1 2 3).typenum = (mkArr [4] 1 3 4).typenum := by
  exact ⟨rfl, by decide, by decide, by decide⟩

/-- **C6** (amended): provided the orthogonal element count is nonzero (a
zero-orthogonal call is the documented no-op and skips these checks — see the
counterexample) and the checks preceding the per-index loop pass, a `take` or
`put` call with several index arrays raises the index-shape error when some
index array's shape differs from the first's (types all agreeing), and raises
the index-type error when some index array's type id differs from the first's
(shapes all agreeing) — in both cases with no device work. -/
theorem take_put_index_agreement :
    (∀ (tbl : Nat → Nat → Nat → Bool) q src rep (tl : List USMArray) dst ax mode
        deps,
      parse_py_ind q (rep :: tl) = .ok () → ¬ (ax < 0) →
      ¬ (mode ≠ 0 ∧ mode ≠ 1) → dst.writable = true →
      ¬ (ax.toNat + (tl.length + 1) > max src.nd 1) →
      take_rank_ok src dst rep (tl.length + 1) →
      orthog_shapes_equal src.shape dst.shape ax.toNat (tl.length + 1) rep.nd
        = true →
      orthog_count src.shape ax.toNat (tl.length + 1) ≠ 0 →
      queues_compatible2 q src dst = true →
      ¬ memoryOverlap src dst →
      src.typenum < num_types → dst.typenum < num_types →
      src.typenum = dst.typenum → rep.typenum < num_types →
      ind_axes_match rep.shape dst.shape ax.toNat = true →
      ¬ (dst.addressable <
          orthog_count src.shape ax.toNat (tl.length + 1) * rep.shape.prod) →
      (∀ x ∈ rep :: tl, queues_compatible q x = true) →
      (∀ x ∈ rep :: tl, ¬ memoryOverlap dst x) →
      (∀ x ∈ tl, x.nd = rep.nd) →
      ((∀ x ∈ tl, x.typenum = rep.typenum) → (∃ x ∈ tl, x.shape ≠ rep.shape) →
        usm_ndarray_take tbl q src (rep :: tl) dst ax mode deps =
          ([], .error .indexShapeMismatch)) ∧
      ((∀ x ∈ tl, x.typenum < num_types) → (∀ x ∈ tl, x.shape = rep.shape) →
        (∃ x ∈ tl, x.typenum ≠ rep.typenum) →
        usm_ndarray_take tbl q src (rep :: tl) dst ax mode deps =
          ([], .error .indexTypeMismatch))) ∧
    (∀ (tbl : Nat → Nat → Nat → Bool) q dst rep (tl : List USMArray) val ax mode
        deps,
      parse_py_ind q (rep :: tl) = .ok () → ¬ (ax < 0) →
      ¬ (mode ≠ 0 ∧ mode ≠ 1) → dst.writable = true →
      ¬ (ax.toNat + (tl.length + 1) > max dst.nd 1) →
      take_rank_ok dst val rep (tl.length + 1) →
      orthog_shapes_equal dst.shape val.shape ax.toNat (tl.length + 1) rep.nd
        = true →
      orthog_count dst.shape ax.toNat (tl.length + 1) ≠ 0 →
      queues_compatible2 q dst val = true →
      ¬ memoryOverlap val dst →
      ¬ (dst.addressable < dst.size) →
      dst.typenum < num_types → val.typenum < num_types →
      dst.typenum = val.typenum → rep.typenum < num_types →
      ind_axes_match rep.shape val.shape ax.toNat = true →
      (∀ x ∈ rep :: tl, queues_compatible q x = true) →
      (∀ x ∈ rep :: tl, ¬ memoryOverlap dst x) →
      (∀ x ∈ tl, x.nd = rep.nd) →
      ((∀ x ∈ tl, x.typenum = rep.typenum) → (∃ x ∈ tl, x.shape ≠ rep.shape) →
        usm_ndarray_put tbl q dst (rep :: tl) val ax mode deps =
          ([], .error .indexShapeMismatch)) ∧
      ((∀ x ∈ tl, x.typenum < num_types) → (∀ x ∈ tl, x.shape = rep.shape) →
        (∃ x ∈ tl, x.typenum ≠ rep.typenum) →
        usm_ndarray_put tbl q dst (rep :: tl) val ax mode deps =
          ([], .error .indexTypeMismatch))) := by
  constructor
  · intro tbl q src rep tl dst ax mode deps hp hax hm hw har hrk hoe hoz hq hov
      hst hdt hty hit hia hcap hqall hovall hnd
    have hhead : ∀ e : Err,
        index_arrays_check q dst rep rep.typenum 1 tl = .error e →
        index_arrays_check q dst rep rep.typenum 0 (rep :: tl) = .error e := by
      intro e he
      unfold index_arrays_check
      rw [if_pos (hqall rep (List.mem_cons_self rep tl))]
      have hstep : index_array_step rep rep rep.typenum 0 = .ok () := rfl
      rw [hstep, if_neg (hovall rep (List.mem_cons_self rep tl)), he]
    constructor
    · intro htyeq hex
      have hloop := hhead _ (index_arrays_check_shape_err tl 1 (by omega)
        (fun x hx => hqall x (List.mem_cons_of_mem rep hx))
        (fun x hx => hovall x (List.mem_cons_of_mem rep hx)) hnd htyeq hit hex)
      unfold usm_ndarray_take
      rw [take_validate_cons hp, if_neg hax, if_neg hm,
        if_neg (by simp [hw]), if_neg har, if_neg (not_not_intro hrk),
        if_neg (by simp [hoe]), if_neg hoz, if_neg (by simp [hq]),
        if_neg hov, if_neg (by omega), if_neg (by omega),
        if_neg (not_not_intro hty), if_neg (by omega),
        if_neg (by simp [hia]), if_neg hcap, hloop]
    · intro htyrg hsheq hex
      have hloop := hhead _ (index_arrays_check_type_err tl 1 (by omega)
        (fun x hx => hqall x (List.mem_cons_of_mem rep hx))
        (fun x hx => hovall x (List.mem_cons_of_mem rep hx)) hnd htyrg hsheq hex)
      unfold usm_ndarray_take
      rw [take_validate_cons hp, if_neg hax, if_neg hm,
        if_neg (by simp [hw]), if_neg har, if_neg (not_not_intro hrk),
        if_neg (by simp [hoe]), if_neg hoz, if_neg (by simp [hq]),
        if_neg hov, if_neg (by omega), if_neg (by omega),
        if_neg (not_not_intro hty), if_neg (by omega),
        if_neg (by simp [hia]), if_neg hcap, hloop]
  · intro tbl q dst rep tl val ax mode deps hp hax hm hw har hrk hoe hoz hq hov
      hcap hst hdt hty hit hia hqall hovall hnd
    have hhead : ∀ e : Err,
        index_arrays_check q dst rep rep.typenum 1 tl = .error e →
        index_arrays_check q dst rep rep.typenum 0 (rep :: tl) = .error e := by
      intro e he
      unfold index_arrays_check
      rw [if_pos (hqall rep (List.mem_cons_self rep tl))]
      have hstep : index_array_step rep rep rep.typenum 0 = .ok () := rfl
      rw [hstep, if_neg (hovall rep (List.mem_cons_self rep tl)), he]
    constructor
    · intro htyeq hex
      have hloop := hhead _ (index_arrays_check_shape_err tl 1 (by omega)
        (fun x hx => hqall x (List.mem_cons_of_mem rep hx))
        (fun x hx => hovall x (List.mem_cons_of_mem rep hx)) hnd htyeq hit hex)
      unfold usm_ndarray_put
      rw [put_validate_cons hp, if_neg hax, if_neg hm,
        if_neg (by simp [hw]), if_neg har, if_neg (not_not_intro hrk),
        if_neg (by simp [hoe]), if_neg hoz, if_neg (by simp [hq]),
        if_neg hov, if_neg hcap, if_neg (by omega), if_neg (by omega),
        if_neg (not_not_intro hty), if_neg (by omega),
        if_neg (by simp [hia]), hloop]
    · intro htyrg hsheq hex
      have hloop := hhead _ (index_arrays_check_type_err tl 1 (by omega)
        (fun x hx => hqall x (List.mem_cons_of_mem rep hx))
        (fun x hx => hovall x (List.mem_cons_of_mem rep hx)) hnd htyrg hsheq hex)
      unfold usm_ndarray_put
      rw [put_validate_cons hp, if_neg hax, if_neg hm,
        if_neg (by simp [hw]), if_neg har, if_neg (not_not_intro hrk),
        if_neg (by simp [hoe]), if_neg hoz, if_neg (by simp [hq]),
        if_neg hov, if_neg hcap, if_neg (by omega), if_neg (by omega),
        if_neg (not_not_intro hty), if_neg (by omega),
        if_neg (by simp [hia]), hloop]

/-- Witness for the amended C6: with a nonzero orthogonal count and two index
arrays of shapes (3) and (4) (equal ranks and types), take raises the
index-shape error. -/
theorem take_put_index_agreement_witness :
    usm_ndarray_take tblAll 0 (mkArr [2, 2] 0 0 4)
        [mkArr [3] 1 2 3, mkArr [4] 1 3 4] (mkArr [3] 0 1 4) 0 0 [] =
      ([], .error .indexShapeMismatch) :=
  ((take_put_index_agreement.1 tblAll 0 (mkArr [2, 2] 0 0 4) (mkArr [3] 1 2 3)
    [mkArr [4] 1 3 4] (mkArr [3] 0 1 4) 0 0 [] (by decide) (by decide)
    (by decide) (by decide) (by decide) (by decide) (by decide) (by decide)
    (by decide) (by decide) (by decide) (by decide) (by decide) (by decide)
    (by decide) (by decide) (by decide) (by decide) (by decide)).1
    (by decide) (by decide))

end DpctlIndexing
